import Mathlib

/-!
Verification of the milestone/achievement computation engine of
`ncaam_processor` (`docs/app.js`, function `computeGameMilestones`).

The JavaScript source is shallowly embedded: JS objects used as maps become
Lean functions with a default value (JS treats `undefined` and falsy values
such as `0`, `''` uniformly in the guards of the source, which the embedding
mirrors), JS `Set`s become insertion-ordered duplicate-free lists, and the
single mutable pass becomes a fold threading an explicit state record.
`Array.prototype.sort` (a stable comparison sort) is modelled by
`List.mergeSort`, which is likewise stable.  `String.localeCompare` is
modelled as code-point lexicographic comparison.
-/

namespace NCAAM

/-- One game record, with the fields `computeGameMilestones` reads.
Absent JS fields are represented by `""` (resp. `0` for scores), matching
the `|| ''` / `|| 0` defaulting in the source. -/
structure Game where
  GameID : String := ""
  DateSort : String := ""
  TimeSort : String := ""
  Gender : String := ""
  Division : String := ""
  AwayTeam : String := ""
  HomeTeam : String := ""
  AwayScore : Nat := 0
  HomeScore : Nat := 0
  Venue : String := ""
  City : String := ""
  State : String := ""
  AwayConf : String := ""
  HomeConf : String := ""
  deriving DecidableEq, Repr

/-- One entry of `confData.teams` in `DATA.conferenceChecklist`
(the source tests both `t.team` and `t.name`). -/
structure ChecklistTeam where
  team : String := ""
  name : String := ""
  deriving DecidableEq, Repr

/-- One conference of `DATA.conferenceChecklist`. -/
structure ConfData where
  teams : List ChecklistTeam := []
  totalTeams : Nat := 0
  deriving DecidableEq, Repr

/-- One entry of `DATA.teams` (fallback conference lookup). -/
structure TeamRec where
  Team : String := ""
  Conference : String := ""
  deriving DecidableEq, Repr

/-- One player-appearance record of `DATA.playerGames`. -/
structure PlayerGame where
  game_id : String := ""
  player_id : String := ""
  player : String := ""
  team : String := ""
  realgm_previous_schools : List String := []
  date_yyyymmdd : String := ""
  deriving DecidableEq, Repr

/-- The parts of the global `DATA` object that the engine consumes.
JS objects keyed by strings become insertion-ordered association lists
(JS object keys are unique; lookups take the first match). -/
structure Data where
  games : List Game := []
  conferenceChecklist : List (String × ConfData) := []
  teams : List TeamRec := []
  teamAliases : List (String × String) := []
  playerGames : List PlayerGame := []
  deriving DecidableEq, Repr

/-- JS object lookup returning `''` for an absent key
(used where the source only tests truthiness of the value). -/
def lookupStr (m : List (String × String)) (k : String) : String :=
  match m.find? (fun p => p.1 = k) with
  | some p => p.2
  | none => ""

/-- Code-point comparison of characters. -/
def charCmp (c d : Char) : Ordering :=
  if c.toNat < d.toNat then .lt else if d.toNat < c.toNat then .gt else .eq

/-- Code-point lexicographic comparison of character lists. -/
def charsCmp : List Char → List Char → Ordering
  | [], [] => .eq
  | [], _ :: _ => .lt
  | _ :: _, [] => .gt
  | c :: cs, d :: ds =>
    match charCmp c d with
    | .eq => charsCmp cs ds
    | o => o

/-- Model of `String.prototype.localeCompare` as code-point
lexicographic comparison (the spec reads the comparator as
"lexicographic string compare"). -/
def strCmp (a b : String) : Ordering :=
  charsCmp a.data b.data

/-- `game.Gender || 'M'` — the effective gender used throughout. -/
def effGender (g : Game) : String :=
  if g.Gender = "" then "M" else g.Gender

/-- The four-key comparator passed to `.sort` in `computeGameMilestones`
(`app.js` lines 411–423): `DateSort`, then `TimeSort` when both are
non-empty and unequal, then gender with `W` before `M`, then `GameID`. -/
def cmpGame (a b : Game) : Ordering :=
  let dc := strCmp a.DateSort b.DateSort
  if dc ≠ .eq then dc
  else if a.TimeSort ≠ "" ∧ b.TimeSort ≠ "" ∧ a.TimeSort ≠ b.TimeSort then
    strCmp a.TimeSort b.TimeSort
  else
    let ga := effGender a
    let gb := effGender b
    if ga ≠ gb then (if ga = "W" then .lt else .gt)
    else strCmp a.GameID b.GameID

/-- `cmpGame` as a boolean "less or equal" (comparator result ≤ 0). -/
def gameLE (a b : Game) : Bool :=
  cmpGame a b ≠ .gt

/-- The engine's pre-processing sort: a stable comparison sort with
comparator `cmpGame` (modelled by the stable `List.mergeSort`). -/
def sortGames (gs : List Game) : List Game :=
  gs.mergeSort gameLE

/-! ### Calendar dates

The streak logic evaluates
`new Date(d.slice(0,4) + '-' + d.slice(4,6) + '-' + d.slice(6,8))` and
rounds the millisecond difference to days.  A `DateSort` string parses
successfully exactly when its first eight characters are digits forming a
valid proleptic-Gregorian `YYYYMMDD` date (otherwise the constructed
string is not a valid date string and JS yields `Invalid Date`, making
the day difference `NaN`).  Valid dates are mapped to a day number so
that differences of day numbers equal calendar-day differences. -/

def isDigit (c : Char) : Bool :=
  48 ≤ c.toNat ∧ c.toNat ≤ 57

def digitVal (c : Char) : Nat :=
  c.toNat - 48

def isLeap (y : Nat) : Bool :=
  (y % 4 = 0 ∧ y % 100 ≠ 0) ∨ y % 400 = 0

def daysInMonth (y m : Nat) : Nat :=
  if m = 1 then 31
  else if m = 2 then (if isLeap y then 29 else 28)
  else if m = 3 then 31
  else if m = 4 then 30
  else if m = 5 then 31
  else if m = 6 then 30
  else if m = 7 then 31
  else if m = 8 then 31
  else if m = 9 then 30
  else if m = 10 then 31
  else if m = 11 then 30
  else 31

/-- Days in the months strictly before month `m` of a non-leap year. -/
def monthPrefixDays (m : Nat) : Nat :=
  if m = 1 then 0
  else if m = 2 then 31
  else if m = 3 then 59
  else if m = 4 then 90
  else if m = 5 then 120
  else if m = 6 then 151
  else if m = 7 then 181
  else if m = 8 then 212
  else if m = 9 then 243
  else if m = 10 then 273
  else if m = 11 then 304
  else 334

/-- 1-based day of year. -/
def dayOfYear (y m d : Nat) : Nat :=
  monthPrefixDays m + (if isLeap y ∧ 3 ≤ m then 1 else 0) + d

/-- Absolute day number of a calendar date (rata die shifted by 400 years
so that year 0 stays in `Nat`; only differences are ever used and the
Gregorian leap pattern has period 400). -/
def dayNumber (y m d : Nat) : Nat :=
  let yy := y + 400
  365 * (yy - 1) + (yy - 1) / 4 - (yy - 1) / 100 + (yy - 1) / 400 + dayOfYear y m d

/-- Parse a `DateSort` string the way the streak code's
`new Date(...)` call does: the first eight characters must be digits
forming a valid calendar date; the result is its day number. -/
def parseDateSort (s : String) : Option Nat :=
  let cs := s.data
  if h : 8 ≤ cs.length then
    if (cs.take 8).all isDigit then
      let y := 1000 * digitVal cs[0] + 100 * digitVal cs[1] + 10 * digitVal cs[2] + digitVal cs[3]
      let m := 10 * digitVal cs[4] + digitVal cs[5]
      let d := 10 * digitVal cs[6] + digitVal cs[7]
      if 1 ≤ m ∧ m ≤ 12 ∧ 1 ≤ d ∧ d ≤ daysInMonth y m then
        some (dayNumber y m d)
      else none
    else none
  else none

/-- `Math.round((thisDate - lastDate) / 86400000)`: the signed
calendar-day difference, or `none` when either date is invalid
(the JS value `NaN`). -/
def dateDiffDays (last this : String) : Option Int :=
  match parseDateSort last, parseDateSort this with
  | some a, some b => some ((b : Int) - (a : Int))
  | _, _ => none

/-! ### Conference lookups (`getTeamConference` / `getGameConference`) -/

/-- `DEFUNCT_TEAM_CONFERENCES` lookup (`app.js` line 13). -/
def defunctConference (teamName : String) : String :=
  if teamName = "St. Francis (NY)" then "NEC" else ""

/-- `getTeamConference` (`app.js` lines 23–45): defunct table, then the
first checklist conference listing the team (by `team` or `name` field),
then the `DATA.teams` fallback. -/
def getTeamConference (d : Data) (teamName : String) : String :=
  if teamName = "" then ""
  else if defunctConference teamName ≠ "" then defunctConference teamName
  else
    match d.conferenceChecklist.find? (fun p =>
        p.2.teams.any (fun t => t.team = teamName ∨ t.name = teamName)) with
    | some p => p.1
    | none =>
      match d.teams.find? (fun t => t.Team = teamName ∧ t.Conference ≠ "") with
      | some t => t.Conference
      | none => ""

/-- `getGameConference` (`app.js` lines 39–45) for the away side. -/
def awayConference (d : Data) (g : Game) : String :=
  if g.AwayConf ≠ "" then g.AwayConf else getTeamConference d g.AwayTeam

/-- `getGameConference` (`app.js` lines 39–45) for the home side. -/
def homeConference (d : Data) (g : Game) : String :=
  if g.HomeConf ≠ "" then g.HomeConf else getTeamConference d g.HomeTeam

/-- The completion-total table (`app.js` lines 446–451): checklist
`totalTeams` with the two sentinel conferences skipped. -/
def conferenceTeamTotal (d : Data) (c : String) : Nat :=
  if c = "All D1" ∨ c = "Historical/Other" then 0
  else
    match d.conferenceChecklist.find? (fun p => p.1 = c) with
    | some p => p.2.totalTeams
    | none => 0

/-- Membership in `actualD1Teams` (`app.js` lines 464–484): a checklist
team of a non-sentinel conference, its alias-table canonical form, or any
alias mapping to it. -/
def isActualD1Team (d : Data) (x : String) : Bool :=
  d.conferenceChecklist.any (fun p =>
    p.1 ≠ "All D1" ∧ p.1 ≠ "Historical/Other" ∧
    p.2.teams.any (fun t => t.team ≠ "" ∧
      (x = t.team ∨
       (lookupStr d.teamAliases t.team ≠ "" ∧ x = lookupStr d.teamAliases t.team) ∨
       lookupStr d.teamAliases x = t.team)))

/-! ### Badges

Each constructor corresponds to one `badges.push` site of
`computeGameMilestones`, carrying the data that the pushed
`type`/`text`/`title` strings are built from; `renderBadge` below
produces those exact strings. -/

inductive BadgeK where
  | gameCount (n : Nat)
  | d1Game (n : Nat)
  | streak (n : Nat)
  | newState (state : String) (ord : Nat)
  | venueCount (venue : String) (ord : Nat)
  | venueVisit (venue : String) (n : Nat)
  | newTeam (team gender : String)
  | d1Team (gender : String) (count : Nat)
  | teamVisit (team gender : String) (n : Nat)
  | newConf (conf : String)
  | confComplete (conf gender : String) (total : Nat)
  | newMatchup (awayTeam homeTeam gender : String)
  | confMatchup (awayConf homeConf : String)
  | transfer (player : String) (prevTeams : List String) (newTeam : String)
  deriving DecidableEq, Repr

/-- The `ordinal` helper (`app.js` lines 80–84). -/
def ordinalStr (n : Nat) : String :=
  let v := n % 100
  let i := if 20 ≤ v then (v - 20) % 10 else v
  toString n ++ (if i = 1 then "st" else if i = 2 then "nd" else if i = 3 then "rd" else "th")

/-- The rendered `type`/`text`/`title` strings of a badge, exactly as
pushed by the source. -/
structure Badge where
  type : String
  text : String
  title : String
  deriving DecidableEq, Repr

def wTag (gender : String) : String :=
  if gender = "W" then " (W)" else ""

def renderBadge : BadgeK → Badge
  | .gameCount n =>
    ⟨"game-count", "Game #" ++ toString n, ordinalStr n ++ " game attended"⟩
  | .d1Game n =>
    ⟨"d1-game", "D1 #" ++ toString n, ordinalStr n ++ " D1 game attended"⟩
  | .streak n =>
    ⟨"streak", toString n ++ "-Day Streak",
      toString n ++ " consecutive days attending games"⟩
  | .newState s ord =>
    ⟨"new-state", "New State: " ++ s, ordinalStr ord ++ " state visited"⟩
  | .venueCount v ord =>
    ⟨"venue-count", ordinalStr ord ++ " Venue",
      ordinalStr ord ++ " unique venue visited: " ++ v⟩
  | .venueVisit v n =>
    ⟨"venue-visit", v ++ " #" ++ toString n,
      ordinalStr n ++ " game at " ++ v⟩
  | .newTeam t g =>
    ⟨"new-team", "New: " ++ t ++ wTag g,
      "First time seeing " ++ t ++ (if g = "W" then " (Women)" else "")⟩
  | .d1Team g n =>
    ⟨"d1-team", toString n ++ " D1 Teams" ++ wTag g,
      "Seen " ++ toString n ++ " unique D1 " ++
        (if g = "W" then "women\x27s" else "men\x27s") ++ " teams"⟩
  | .teamVisit t g n =>
    ⟨"team-visit", t ++ " #" ++ toString n ++ wTag g,
      ordinalStr n ++ " time seeing " ++ t⟩
  | .newConf c =>
    ⟨"new-conf", "New conf: " ++ c, "First " ++ c ++ " team seen"⟩
  | .confComplete c g total =>
    ⟨"conf-complete", c ++ " Complete" ++ wTag g ++ "!",
      "Seen all " ++ toString total ++ " " ++ c ++ " teams" ++
        (if g = "W" then " (Women\x27s)" else "")⟩
  | .newMatchup a h g =>
    ⟨"new-matchup", "New matchup",
      "First time seeing " ++ a ++ " vs " ++ h ++ wTag g⟩
  | .confMatchup a h =>
    ⟨"conf-matchup", a ++ " vs " ++ h, "First " ++ a ++ " vs " ++ h ++ " game"⟩
  | .transfer p prev t =>
    let prevStr := String.intercalate ", " prev
    ⟨"transfer", p ++ " (" ++ prevStr ++ " → " ++ t ++ ")",
      "First time seeing " ++ p ++ " with " ++ t ++ " (previously: " ++ prevStr ++ ")"⟩

/-! ### Rolling state

The mutable variables of `computeGameMilestones` (`app.js` lines
425–462).  Count maps default to `0` (the source's guards test
truthiness, under which an absent key and a stored `0` behave
identically); seen-maps default to `false`/`[]`. -/

structure MState where
  teamCounts : String → Nat
  teamRecords : String → Nat × Nat
  venueCounts : String → Nat
  matchupsSeen : String → Bool
  confMatchupCounts : String → Nat
  confTeamCounts : String → Nat
  playerTeams : String → Option (String × List String)
  venueOrder : List String
  confTeamsSeen : String → List String
  confVenuesSeen : String → Bool
  confCompleted : String → Bool
  statesSeen : List String
  stateOrder : List String
  currentStreak : Nat
  lastGameDate : Option String
  maxStreak : Nat
  streakHistory : List Nat
  gameCount : Nat
  d1GameCount : Nat
  d1VenueCount : Nat
  d1VenuesSeen : List String
  d1TeamsSeen : String → List String

def initState : MState where
  teamCounts := fun _ => 0
  teamRecords := fun _ => (0, 0)
  venueCounts := fun _ => 0
  matchupsSeen := fun _ => false
  confMatchupCounts := fun _ => 0
  confTeamCounts := fun _ => 0
  playerTeams := fun _ => none
  venueOrder := []
  confTeamsSeen := fun _ => []
  confVenuesSeen := fun _ => false
  confCompleted := fun _ => false
  statesSeen := []
  stateOrder := []
  currentStreak := 0
  lastGameDate := none
  maxStreak := 0
  streakHistory := []
  gameCount := 0
  d1GameCount := 0
  d1VenueCount := 0
  d1VenuesSeen := []
  d1TeamsSeen := fun _ => []

/-- Pointwise update of a string-keyed map. -/
def upd {α : Type} (m : String → α) (k : String) (v : α) : String → α :=
  fun x => if x = k then v else m x

/-- JS `Set.add` on an insertion-ordered list. -/
def setAdd (l : List String) (x : String) : List String :=
  if x ∈ l then l else l ++ [x]

/-- `GAME_MILESTONES` and `D1_MILESTONES` (`app.js` lines 453, 456). -/
def GAME_MILESTONES : List Nat := [1, 10, 25, 50, 75, 100, 150, 200, 250, 500]

/-- `MILESTONE_COUNTS` (`app.js` line 407). -/
def MILESTONE_COUNTS : List Nat := [1, 5, 10, 15, 20, 25, 30, 35, 40, 45, 50, 75, 100, 150, 200]

/-- `D1_TEAM_MILESTONES` (`app.js` line 461). -/
def D1_TEAM_MILESTONES : List Nat :=
  [5, 10, 15, 20, 25, 30, 35, 40, 45, 50, 55, 60, 65, 70, 75, 80, 85, 90, 95, 100]

/-- Rule 1: the running total game count (`app.js` lines 501–509). -/
def gameCountStep (st : MState) : MState × List BadgeK :=
  let n := st.gameCount + 1
  ({ st with gameCount := n },
   if n ∈ GAME_MILESTONES then [.gameCount n] else [])

/-- Rule 2: the D1-scoped game count (`app.js` lines 511–521). -/
def d1GameStep (st : MState) (division : String) : MState × List BadgeK :=
  if division = "D1" then
    let n := st.d1GameCount + 1
    ({ st with d1GameCount := n },
     if n ∈ GAME_MILESTONES then [.d1Game n] else [])
  else (st, [])

/-- The streak state update (`app.js` lines 524–540). -/
def streakUpdate (st : MState) (dateSort : String) : MState :=
  let st' :=
    if st.lastGameDate.getD "" ≠ "" ∧ dateSort ≠ "" then
      match dateDiffDays (st.lastGameDate.getD "") dateSort with
      | some 0 => st
      | some 1 => { st with currentStreak := st.currentStreak + 1 }
      | _ =>
        { st with
          streakHistory :=
            st.streakHistory ++ (if 2 ≤ st.currentStreak then [st.currentStreak] else []),
          maxStreak := max st.maxStreak st.currentStreak,
          currentStreak := 1 }
    else { st with currentStreak := 1 }
  if dateSort ≠ "" then { st' with lastGameDate := some dateSort } else st'

/-- Rule 3: streak tracking and its badge (`app.js` lines 523–548). -/
def streakStep (st : MState) (dateSort : String) : MState × List BadgeK :=
  let st' := streakUpdate st dateSort
  (st', if 2 ≤ st'.currentStreak then [.streak st'.currentStreak] else [])

/-- Rule 4: new-state detection (`app.js` lines 550–559). -/
def stateStep (st : MState) (state : String) : MState × List BadgeK :=
  if state ≠ "" ∧ state ∉ st.statesSeen then
    let seen := st.statesSeen ++ [state]
    ({ st with statesSeen := seen, stateOrder := st.stateOrder ++ [state] },
     [.newState state seen.length])
  else (st, [])

/-- Rule 5: venue milestones and D1 venue tracking
(`app.js` lines 561–588). -/
def venueStep (st : MState) (venue division : String) : MState × List BadgeK :=
  if venue = "" then (st, [])
  else
    let r :=
      if st.venueCounts venue = 0 then
        let order := st.venueOrder ++ [venue]
        let st1 :=
          if division = "D1" ∧ venue ∉ st.d1VenuesSeen then
            { st with venueOrder := order, d1VenuesSeen := st.d1VenuesSeen ++ [venue], d1VenueCount := st.d1VenueCount + 1 }
          else { st with venueOrder := order }
        (st1, if order.length ∈ MILESTONE_COUNTS then [BadgeK.venueCount venue order.length] else [])
      else (st, ([] : List BadgeK))
    let n := r.1.venueCounts venue + 1
    let st2 := { r.1 with venueCounts := upd r.1.venueCounts venue n }
    (st2, r.2 ++ (if 1 < n ∧ n ∈ MILESTONE_COUNTS then [BadgeK.venueVisit venue n] else []))

/-- Rule 6 for a single team (`app.js` lines 591–632): new-team badge,
D1-team tracking, visit counter, and the win/loss record. -/
def teamStep (d : Data) (g : Game) (gender : String) (st : MState) (team : String) :
    MState × List BadgeK :=
  if team = "" then (st, [])
  else
    let teamKey := team ++ "|" ++ gender
    let r :=
      if st.teamCounts teamKey = 0 then
        let b := [BadgeK.newTeam team gender]
        if isActualD1Team d team then
          let seen := setAdd (st.d1TeamsSeen gender) team
          let st1 := { st with d1TeamsSeen := upd st.d1TeamsSeen gender seen }
          (st1, b ++ (if seen.length ∈ D1_TEAM_MILESTONES then
            [BadgeK.d1Team gender seen.length] else []))
        else (st, b)
      else (st, ([] : List BadgeK))
    let n := r.1.teamCounts teamKey + 1
    let st2 := { r.1 with teamCounts := upd r.1.teamCounts teamKey n }
    let b2 := if 1 < n ∧ n ∈ MILESTONE_COUNTS then [BadgeK.teamVisit team gender n] else []
    let rec0 := st2.teamRecords teamKey
    let isWinner :=
      (team = g.AwayTeam ∧ g.HomeScore < g.AwayScore) ∨
      (team = g.HomeTeam ∧ g.AwayScore < g.HomeScore)
    let rec1 := if isWinner then (rec0.1 + 1, rec0.2) else (rec0.1, rec0.2 + 1)
    ({ st2 with teamRecords := upd st2.teamRecords teamKey rec1 }, r.2 ++ b2)

/-- Rule 7 for a single `(conference, team)` pair
(`app.js` lines 635–662). -/
def confStep (d : Data) (gender : String) (st : MState) (conf team : String) :
    MState × List BadgeK :=
  if conf = "" ∨ conf = "Historical/Other" then (st, [])
  else
    let key := conf ++ "|" ++ gender
    let wasNew := team ∉ st.confTeamsSeen key
    let seen := setAdd (st.confTeamsSeen key) team
    let st1 := { st with confTeamsSeen := upd st.confTeamsSeen key seen }
    let b1 := if st1.confTeamCounts conf = 0 then [BadgeK.newConf conf] else []
    let st2 :=
      if wasNew then { st1 with confTeamCounts := upd st1.confTeamCounts conf (st1.confTeamCounts conf + 1) }
      else st1
    let total := conferenceTeamTotal d conf
    if 0 < total ∧ total ≤ seen.length ∧ st2.confCompleted key = false then
      ({ st2 with confCompleted := upd st2.confCompleted key true },
       b1 ++ [BadgeK.confComplete conf gender total])
    else (st2, b1)

/-- JS `[a, b].sort()` for two strings. -/
def sort2 (a b : String) : String × String :=
  if strCmp a b = .gt then (b, a) else (a, b)

/-- Rule 8: new-matchup detection (`app.js` lines 665–675). -/
def matchupStep (st : MState) (awayTeam homeTeam gender : String) : MState × List BadgeK :=
  if awayTeam ≠ "" ∧ homeTeam ≠ "" then
    let p := sort2 awayTeam homeTeam
    let key := p.1 ++ "|" ++ p.2 ++ "|" ++ gender
    if st.matchupsSeen key = false then
      ({ st with matchupsSeen := upd st.matchupsSeen key true },
       [.newMatchup awayTeam homeTeam gender])
    else (st, [])
  else (st, [])

/-- Rule 9: conference-matchup detection (`app.js` lines 678–689). -/
def confMatchupStep (st : MState) (awayConf homeConf : String) : MState × List BadgeK :=
  if awayConf ≠ "" ∧ homeConf ≠ "" ∧ awayConf ≠ homeConf then
    let p := sort2 awayConf homeConf
    let key := p.1 ++ "|" ++ p.2
    let b := if st.confMatchupCounts key = 0 then [BadgeK.confMatchup awayConf homeConf] else []
    ({ st with confMatchupCounts := upd st.confMatchupCounts key (st.confMatchupCounts key + 1) }, b)
  else (st, [])

/-- Conference-venue tracking (`app.js` lines 692–697); emits no badge. -/
def confVenueStep (st : MState) (venue homeConf : String) : MState :=
  if venue ≠ "" ∧ homeConf ≠ "" ∧ homeConf ≠ "Historical/Other" then
    { st with confVenuesSeen := upd st.confVenuesSeen (homeConf ++ "|" ++ venue) true }
  else st

/-- JS `toLowerCase` on the ASCII team/player names involved: per-char
lowering. -/
def strToLower (s : String) : String :=
  ⟨s.data.map Char.toLower⟩

/-- The condition `hasPlayerAtSchoolBefore` of the seeding loop
(`app.js` lines 713–719): `idMatch || nameMatch` as written in the
source.  Note that `playerId` is non-empty at every call site, so the
`nameMatch` disjunct (guarded by `!playerId`) can never hold. -/
def hasPlayerAtSchoolBefore (d : Data) (playerId playerName currentDateSort
    prevSchool : String) : Bool :=
  d.playerGames.any (fun pg2 =>
    ((playerId ≠ "" ∧ pg2.player_id = playerId) ∨
     (playerId = "" ∧ pg2.player ≠ "" ∧ strToLower pg2.player = strToLower playerName)) ∧
    pg2.team = prevSchool ∧
    strCmp pg2.date_yyyymmdd currentDateSort = Ordering.lt)

/-- The known-schools seed built the first time a player is seen
(`app.js` lines 710–722). -/
def seedSchools (d : Data) (playerId playerName currentDateSort : String)
    (prev : List String) : List String :=
  if prev ≠ [] then
    prev.foldl (fun acc prevSchool =>
      if hasPlayerAtSchoolBefore d playerId playerName currentDateSort prevSchool then
        setAdd acc prevSchool
      else acc) []
  else []

/-- The player's map entry as read (or freshly seeded) by rule 10. -/
def playerEntry (d : Data) (currentDateSort : String) (st : MState) (pg : PlayerGame) :
    String × List String :=
  let playerId := if pg.player_id ≠ "" then pg.player_id else pg.player
  match st.playerTeams playerId with
  | some e => e
  | none => (pg.player, seedSchools d playerId pg.player currentDateSort pg.realgm_previous_schools)

/-- Rule 10 for a single player-appearance record
(`app.js` lines 701–734). -/
def transferStep (d : Data) (currentDateSort : String) (st : MState) (pg : PlayerGame) :
    MState × List BadgeK :=
  let playerId := if pg.player_id ≠ "" then pg.player_id else pg.player
  let playerTeam := pg.team
  if playerId = "" ∨ playerTeam = "" then (st, [])
  else
    let entry := playerEntry d currentDateSort st pg
    let b :=
      if entry.2 ≠ [] ∧ playerTeam ∉ entry.2 then
        [BadgeK.transfer pg.player entry.2 playerTeam]
      else []
    let pt := upd st.playerTeams playerId (some (entry.1, setAdd entry.2 playerTeam))
    ({ st with playerTeams := pt }, b)

/-- The fold of rule 10 over `gamePlayers` (`app.js` lines 700–734). -/
def transferFold (d : Data) (ds : String) (st : MState) :
    List PlayerGame → MState × List BadgeK
  | [] => (st, [])
  | pg :: pgs =>
    let r := transferStep d ds st pg
    let rest := transferFold d ds r.1 pgs
    (rest.1, r.2 ++ rest.2)

/-- The `gameId` under which badges are recorded
(`app.js` line 487). -/
def gameIdOf (index : Nat) (g : Game) : String :=
  if g.GameID = "" then "game-" ++ toString index else g.GameID

/-- One iteration of the main loop (`app.js` lines 486–735): the ten
rules applied in source order, with the badges concatenated in emission
order. -/
def processGame (d : Data) (st : MState) (index : Nat) (g : Game) :
    MState × List BadgeK :=
  let gender := effGender g
  let division := if g.Division = "" then "D1" else g.Division
  let awayConf := awayConference d g
  let homeConf := homeConference d g
  let s1 := gameCountStep st
  let s2 := d1GameStep s1.1 division
  let s3 := streakStep s2.1 g.DateSort
  let s4 := stateStep s3.1 g.State
  let s5 := venueStep s4.1 g.Venue division
  let s6a := teamStep d g gender s5.1 g.AwayTeam
  let s6b := teamStep d g gender s6a.1 g.HomeTeam
  let s7a := confStep d gender s6b.1 awayConf g.AwayTeam
  let s7b := confStep d gender s7a.1 homeConf g.HomeTeam
  let s8 := matchupStep s7b.1 g.AwayTeam g.HomeTeam gender
  let s9 := confMatchupStep s8.1 awayConf homeConf
  let st10 := confVenueStep s9.1 g.Venue homeConf
  let s10 := transferFold d g.DateSort st10
    (d.playerGames.filter (fun pg => pg.game_id = gameIdOf index g))
  (s10.1, s1.2 ++ s2.2 ++ s3.2 ++ s4.2 ++ s5.2 ++ s6a.2 ++ s6b.2 ++ s7a.2 ++
    s7b.2 ++ s8.2 ++ s9.2 ++ s10.2)

/-- The per-game output attached to `gameMilestones[gameId]`. -/
structure GameOut where
  gameId : String
  gameNumber : Nat
  badges : List BadgeK
  deriving DecidableEq, Repr

/-- The main loop over the sorted stream. -/
def processAll (d : Data) : MState → Nat → List Game → MState × List GameOut
  | st, _, [] => (st, [])
  | st, index, g :: gs =>
    let r := processGame d st index g
    let rest := processAll d r.1 (index + 1) gs
    (rest.1, ⟨gameIdOf index g, index + 1, r.2⟩ :: rest.2)

/-- The post-pass streak flush (`app.js` lines 737–739). -/
def finalizeStreak (st : MState) : MState :=
  { st with
    streakHistory :=
      st.streakHistory ++ (if 2 ≤ st.currentStreak then [st.currentStreak] else []),
    maxStreak := max st.maxStreak st.currentStreak }

/-- `computeGameMilestones`: sort, run the pass, flush the streak.
Returns the per-game outputs in stream order together with the final
rolling state. -/
def computeGameMilestones (d : Data) : List GameOut × MState :=
  let r := processAll d initState 0 (sortGames d.games)
  (r.2, finalizeStreak r.1)

/-- All badges of a run, in stream order. -/
def allBadges (d : Data) : List BadgeK :=
  ((computeGameMilestones d).1.map GameOut.badges).flatten

/-! ### Badge classification predicates -/

def isStreakB : BadgeK → Bool
  | .streak _ => true
  | _ => false

def isVenueCountB : BadgeK → Bool
  | .venueCount _ _ => true
  | _ => false

def isVenueVisitB : BadgeK → Bool
  | .venueVisit _ _ => true
  | _ => false

def isTransferB : BadgeK → Bool
  | .transfer _ _ _ => true
  | _ => false

def isConfCompleteB : BadgeK → Bool
  | .confComplete _ _ _ => true
  | _ => false

/-- The `(team, gender)` key string `team|gender` (`app.js` line 593). -/
def teamKeyOf (team gender : String) : String :=
  team ++ "|" ++ gender

/-- The order-independent matchup key (`app.js` line 666). -/
def matchupKeyOf (awayTeam homeTeam gender : String) : String :=
  (sort2 awayTeam homeTeam).1 ++ "|" ++ (sort2 awayTeam homeTeam).2 ++ "|" ++ gender

/-- New-state badge for a given state value. -/
def isNewStateFor (s : String) : BadgeK → Bool
  | .newState s' _ => s' = s
  | _ => false

/-- New-team badge whose `(team, gender)` key string is `k`. -/
def isNewTeamKey (k : String) : BadgeK → Bool
  | .newTeam t g => teamKeyOf t g = k
  | _ => false

/-- New-conference badge for a given conference name. -/
def isNewConfFor (c : String) : BadgeK → Bool
  | .newConf c' => c' = c
  | _ => false

/-- New-matchup badge whose matchup key string is `k`. -/
def isNewMatchupKey (k : String) : BadgeK → Bool
  | .newMatchup a h g => matchupKeyOf a h g = k
  | _ => false

/-- Either kind of venue badge. -/
def isVenueB (b : BadgeK) : Bool :=
  isVenueCountB b || isVenueVisitB b

/-- Conference-completion badge whose `(conference, gender)` key string
is `k`. -/
def isConfCompleteKey (k : String) : BadgeK → Bool
  | .confComplete c g _ => c ++ "|" ++ g = k
  | _ => false

/-- Conference-completion badge carrying a zero member total. -/
def isConfCompleteZeroTotal : BadgeK → Bool
  | .confComplete _ _ total => total = 0
  | _ => false

/-- Conference-completion badge for one of the two sentinel
conference names. -/
def isConfCompleteSentinel : BadgeK → Bool
  | .confComplete c _ _ => c = "All D1" ∨ c = "Historical/Other"
  | _ => false

/-- New-matchup badge for a given unordered pair of teams and gender
(the pair given in either order). -/
def isNewMatchupPair (t1 t2 gender : String) : BadgeK → Bool
  | .newMatchup a h g => ((a = t1 ∧ h = t2) ∨ (a = t2 ∧ h = t1)) ∧ g = gender
  | _ => false

/-- The streak-related state components, for frame reasoning. -/
def streakFields (st : MState) : Nat × Option String × Nat × List Nat :=
  (st.currentStreak, st.lastGameDate, st.maxStreak, st.streakHistory)

/-- The venue-related state components, for frame reasoning. -/
def venueFields (st : MState) :
    (String → Nat) × List String × List String × Nat × (String → Bool) :=
  (st.venueCounts, st.venueOrder, st.d1VenuesSeen, st.d1VenueCount, st.confVenuesSeen)

/-- The state components governing the four kinds of `new-*` badge, for
frame reasoning. -/
def newFields (st : MState) :
    List String × (String → Nat) × (String → Nat) × (String → Bool) ×
      (String → List String) × (String → Bool) :=
  (st.statesSeen, st.teamCounts, st.confTeamCounts, st.matchupsSeen,
   st.confTeamsSeen, st.confCompleted)

/-- The one-per-key counting invariant behind the `new-*`-badges-fire-
at-most-once property: the number of emitted badges of each `new` kind
for a key is `1` or `0` according to whether the corresponding rolling
state records the key as seen, and a conference with a zero team count
has empty `(conference, gender)` seen-sets for the two genders. -/
def C5Inv (st : MState) (out : List BadgeK) : Prop :=
  (∀ s, out.countP (isNewStateFor s) = if s ∈ st.statesSeen then 1 else 0) ∧
  (∀ k, out.countP (isNewTeamKey k) = if st.teamCounts k = 0 then 0 else 1) ∧
  (∀ c, out.countP (isNewConfFor c) = if st.confTeamCounts c = 0 then 0 else 1) ∧
  (∀ k, out.countP (isNewMatchupKey k) = if st.matchupsSeen k then 1 else 0) ∧
  (∀ c γ, (γ = "M" ∨ γ = "W") → st.confTeamCounts c = 0 →
    st.confTeamsSeen (c ++ "|" ++ γ) = [])

/-- The completion-at-most-once counting invariant. -/
def ConfCompleteInv (st : MState) (out : List BadgeK) : Prop :=
  ∀ k, out.countP (isConfCompleteKey k) = if st.confCompleted k then 1 else 0

/-- A game has one of the genders of the data model. -/
def wfGender (g : Game) : Prop :=
  g.Gender = "" ∨ g.Gender = "M" ∨ g.Gender = "W"

/-- The seeding rule as the specification states it: previous schools
kept when some appearance record of the same player — matched by id, or
by name when the appearance carries no id — shows the player on that
school's team strictly before the current date.  Stated for comparison
with the source's `seedSchools`. -/
def specSeedSchools (d : Data) (pid pname ds : String) (prev : List String) :
    List String :=
  prev.filter (fun s => d.playerGames.any (fun pg2 =>
    (if pid ≠ "" then pg2.player_id = pid
     else strToLower pg2.player = strToLower pname) ∧
    pg2.team = s ∧ strCmp pg2.date_yyyymmdd ds = Ordering.lt))

/-! ### Concrete inputs used by counterexamples, scenarios and
witnesses -/

/-- Three games on one date whose comparator constraints are cyclic:
mixed presence of `TimeSort` makes the four-key comparison
non-transitive. -/
def cycleGames : List Game :=
  [{ GameID := "1", DateSort := "20240101", TimeSort := "2" },
   { GameID := "2", DateSort := "20240101", TimeSort := "" },
   { GameID := "3", DateSort := "20240101", TimeSort := "1" }]

/-- Two already-ordered games with distinct dates, on which the
four-key comparator is total and transitive. -/
def orderedPairGames : List Game :=
  [{ GameID := "a", DateSort := "20240101" },
   { GameID := "b", DateSort := "20240102" }]

/-- The end-to-end scenario input of the specification (§8):
TeamX@TeamY, TeamY@TeamX, TeamX@TeamY on three consecutive days. -/
def scenarioData : Data :=
  { games :=
    [{ GameID := "g1", DateSort := "20240101", AwayTeam := "TeamX", HomeTeam := "TeamY",
       AwayScore := 70, HomeScore := 60, Venue := "Arena1" },
     { GameID := "g2", DateSort := "20240102", AwayTeam := "TeamY", HomeTeam := "TeamX",
       AwayScore := 55, HomeScore := 65, Venue := "Arena2" },
     { GameID := "g3", DateSort := "20240103", AwayTeam := "TeamX", HomeTeam := "TeamY",
       AwayScore := 80, HomeScore := 75, Venue := "Arena1" }] }

/-- Completion scenario: a conference of three members, introduced as
A, A, B, C. -/
def confScenarioData : Data :=
  { games :=
    [{ GameID := "c1", DateSort := "20240101", AwayTeam := "A", AwayConf := "ConfZ", HomeTeam := "H1" },
     { GameID := "c2", DateSort := "20240102", AwayTeam := "A", AwayConf := "ConfZ", HomeTeam := "H2" },
     { GameID := "c3", DateSort := "20240103", AwayTeam := "B", AwayConf := "ConfZ", HomeTeam := "H3" },
     { GameID := "c4", DateSort := "20240104", AwayTeam := "C", AwayConf := "ConfZ", HomeTeam := "H4" }],
    conferenceChecklist := [("ConfZ", { totalTeams := 3 })] }

/-- Input whose conferences resolve to the two sentinel names. -/
def sentinelData : Data :=
  { games :=
    [{ GameID := "s1", DateSort := "20240101", AwayTeam := "T1", AwayConf := "All D1",
       HomeTeam := "T2", HomeConf := "ACC" },
     { GameID := "s2", DateSort := "20240102", AwayTeam := "T3", AwayConf := "Historical/Other",
       HomeTeam := "T4", HomeConf := "ACC" }] }

/-- A player with no id whose earlier appearance at a previous school is
recorded only under the same empty id: the specification's by-name
seeding would find it, the source's seeding does not. -/
def transferData : Data :=
  { games := [{ GameID := "G1", DateSort := "20240101", AwayTeam := "TA", HomeTeam := "TB" }],
    playerGames :=
    [{ game_id := "G0", player_id := "", player := "Bob", team := "SchoolX",
       date_yyyymmdd := "20230101" },
     { game_id := "G1", player_id := "", player := "Bob", team := "SchoolY",
       date_yyyymmdd := "20240101", realgm_previous_schools := ["SchoolX"] }] }


/-- A `DATA` object with every table empty. -/
def emptyData : Data := {}

/-- Day-`D` game of the streak-arithmetic scenario. -/
def kGame1 : Game := { GameID := "k1", DateSort := "20240101" }

/-- Day-`D+1` game of the streak-arithmetic scenario. -/
def kGame2 : Game := { GameID := "k2", DateSort := "20240102" }

/-- Second day-`D+1` game (same day twice). -/
def kGame3 : Game := { GameID := "k3", DateSort := "20240102" }

/-- Day-`D+3` game of the streak-arithmetic scenario. -/
def kGame4 : Game := { GameID := "k4", DateSort := "20240104" }

/-- Three games whose third carries a malformed date string. -/
def malformedDateGames : List Game :=
  [{ GameID := "m1", DateSort := "20240101" },
   { GameID := "m2", DateSort := "20240102" },
   { GameID := "m3", DateSort := "BAD!DATE" }]

/-- The same stream with the third date empty instead of malformed. -/
def emptyDateGames : List Game :=
  [{ GameID := "m1", DateSort := "20240101" },
   { GameID := "m2", DateSort := "20240102" },
   { GameID := "m3", DateSort := "" }]

/-- A rolling state in the middle of a two-day streak. -/
def midStreakState : MState :=
  { initState with currentStreak := 2, lastGameDate := some "20240101" }

/-- The game carrying the malformed date, alone. -/
def badDateGame : Game := { GameID := "m3", DateSort := "BAD!DATE" }

/-- The player-appearance record of `transferData` processed for game
`G1`. -/
def bobAppearance : PlayerGame :=
  { game_id := "G1", player_id := "", player := "Bob", team := "SchoolY",
    date_yyyymmdd := "20240101", realgm_previous_schools := ["SchoolX"] }

end NCAAM

namespace NCAAM

/-! ## Step characterizations -/

theorem gameCountStep_fst (st : MState) :
    (gameCountStep st).1 = { st with gameCount := st.gameCount + 1 } := rfl

theorem gameCountStep_snd (st : MState) :
    (gameCountStep st).2 =
      if st.gameCount + 1 ∈ GAME_MILESTONES then [BadgeK.gameCount (st.gameCount + 1)] else [] := rfl

theorem d1GameStep_fst (st : MState) (dv : String) :
    (d1GameStep st dv).1 =
      { st with d1GameCount := if dv = "D1" then st.d1GameCount + 1 else st.d1GameCount } := by
  unfold d1GameStep
  split <;> simp [*]

theorem d1GameStep_snd (st : MState) (dv : String) :
    (d1GameStep st dv).2 =
      if dv = "D1" ∧ st.d1GameCount + 1 ∈ GAME_MILESTONES then
        [BadgeK.d1Game (st.d1GameCount + 1)] else [] := by
  unfold d1GameStep
  split <;> simp_all

theorem streakStep_fst (st : MState) (ds : String) :
    (streakStep st ds).1 = streakUpdate st ds := rfl

theorem streakStep_snd (st : MState) (ds : String) :
    (streakStep st ds).2 =
      if 2 ≤ (streakUpdate st ds).currentStreak then
        [BadgeK.streak (streakUpdate st ds).currentStreak] else [] := rfl

theorem stateStep_fst (st : MState) (s : String) :
    (stateStep st s).1 =
      { st with statesSeen := if s ≠ "" ∧ s ∉ st.statesSeen then st.statesSeen ++ [s] else st.statesSeen, stateOrder := if s ≠ "" ∧ s ∉ st.statesSeen then st.stateOrder ++ [s] else st.stateOrder } := by
  unfold stateStep
  split <;> simp_all

theorem stateStep_snd (st : MState) (s : String) :
    (stateStep st s).2 =
      if s ≠ "" ∧ s ∉ st.statesSeen then
        [BadgeK.newState s (st.statesSeen.length + 1)] else [] := by
  unfold stateStep
  split <;> simp_all

theorem matchupStep_fst (st : MState) (aT hT γ : String) :
    (matchupStep st aT hT γ).1 =
      { st with matchupsSeen := if aT ≠ "" ∧ hT ≠ "" ∧ st.matchupsSeen (matchupKeyOf aT hT γ) = false then upd st.matchupsSeen (matchupKeyOf aT hT γ) true else st.matchupsSeen } := by
  unfold matchupStep matchupKeyOf
  split
  · split <;> simp_all
  · rename_i hcond
    have hneg : ¬(aT ≠ "" ∧ hT ≠ "" ∧ st.matchupsSeen ((sort2 aT hT).1 ++ "|" ++ (sort2 aT hT).2 ++ "|" ++ γ) = false) :=
      fun hc => hcond ⟨hc.1, hc.2.1⟩
    rw [if_neg hneg]

theorem matchupStep_snd (st : MState) (aT hT γ : String) :
    (matchupStep st aT hT γ).2 =
      if aT ≠ "" ∧ hT ≠ "" ∧ st.matchupsSeen (matchupKeyOf aT hT γ) = false then
        [BadgeK.newMatchup aT hT γ] else [] := by
  unfold matchupStep matchupKeyOf
  split
  · split <;> simp_all
  · rename_i hcond
    rw [if_neg]
    intro hc
    exact hcond ⟨hc.1, hc.2.1⟩

theorem confMatchupStep_fst (st : MState) (aC hC : String) :
    (confMatchupStep st aC hC).1 =
      { st with confMatchupCounts := if aC ≠ "" ∧ hC ≠ "" ∧ aC ≠ hC then upd st.confMatchupCounts ((sort2 aC hC).1 ++ "|" ++ (sort2 aC hC).2) (st.confMatchupCounts ((sort2 aC hC).1 ++ "|" ++ (sort2 aC hC).2) + 1) else st.confMatchupCounts } := by
  unfold confMatchupStep
  split <;> simp_all

theorem confMatchupStep_snd (st : MState) (aC hC : String) :
    (confMatchupStep st aC hC).2 =
      if aC ≠ "" ∧ hC ≠ "" ∧ aC ≠ hC ∧
          st.confMatchupCounts ((sort2 aC hC).1 ++ "|" ++ (sort2 aC hC).2) = 0 then
        [BadgeK.confMatchup aC hC] else [] := by
  unfold confMatchupStep
  split
  · by_cases hz : st.confMatchupCounts ((sort2 aC hC).1 ++ "|" ++ (sort2 aC hC).2) = 0 <;>
      simp_all
  · simp_all

theorem confVenueStep_eq (st : MState) (v hc : String) :
    confVenueStep st v hc =
      { st with confVenuesSeen := if v ≠ "" ∧ hc ≠ "" ∧ hc ≠ "Historical/Other" then upd st.confVenuesSeen (hc ++ "|" ++ v) true else st.confVenuesSeen } := by
  unfold confVenueStep
  split <;> simp_all

theorem venueStep_fst (st : MState) (v dv : String) :
    (venueStep st v dv).1 =
      { st with venueCounts := if v = "" then st.venueCounts else upd st.venueCounts v (st.venueCounts v + 1), venueOrder := if v ≠ "" ∧ st.venueCounts v = 0 then st.venueOrder ++ [v] else st.venueOrder, d1VenuesSeen := if v ≠ "" ∧ st.venueCounts v = 0 ∧ dv = "D1" ∧ v ∉ st.d1VenuesSeen then st.d1VenuesSeen ++ [v] else st.d1VenuesSeen, d1VenueCount := if v ≠ "" ∧ st.venueCounts v = 0 ∧ dv = "D1" ∧ v ∉ st.d1VenuesSeen then st.d1VenueCount + 1 else st.d1VenueCount } := by
  unfold venueStep
  split
  · simp_all
  · rename_i hv
    simp only [hv]
    split
    · rename_i hz
      split
      · simp_all
      · rename_i hd
        simp_all
        refine ⟨?_, ?_⟩ <;> rw [if_neg (fun hc => hc.2 (hd hc.1))]
    · simp_all

theorem venueStep_snd (st : MState) (v dv : String) :
    (venueStep st v dv).2 =
      (if v ≠ "" ∧ st.venueCounts v = 0 ∧ st.venueOrder.length + 1 ∈ MILESTONE_COUNTS then [BadgeK.venueCount v (st.venueOrder.length + 1)] else []) ++
      (if v ≠ "" ∧ 1 < st.venueCounts v + 1 ∧ st.venueCounts v + 1 ∈ MILESTONE_COUNTS then [BadgeK.venueVisit v (st.venueCounts v + 1)] else []) := by
  unfold venueStep
  split
  · simp_all
  · rename_i hv
    simp only [hv]
    split
    · rename_i hz
      split <;> simp_all
    · simp_all

theorem teamStep_fst (d : Data) (g : Game) (γ : String) (st : MState) (t : String) :
    (teamStep d g γ st t).1 =
      { st with teamCounts := if t = "" then st.teamCounts else upd st.teamCounts (teamKeyOf t γ) (st.teamCounts (teamKeyOf t γ) + 1), d1TeamsSeen := if t ≠ "" ∧ st.teamCounts (teamKeyOf t γ) = 0 ∧ isActualD1Team d t then upd st.d1TeamsSeen γ (setAdd (st.d1TeamsSeen γ) t) else st.d1TeamsSeen, teamRecords := if t = "" then st.teamRecords else upd st.teamRecords (teamKeyOf t γ) (if (t = g.AwayTeam ∧ g.HomeScore < g.AwayScore) ∨ (t = g.HomeTeam ∧ g.AwayScore < g.HomeScore) then ((st.teamRecords (teamKeyOf t γ)).1 + 1, (st.teamRecords (teamKeyOf t γ)).2) else ((st.teamRecords (teamKeyOf t γ)).1, (st.teamRecords (teamKeyOf t γ)).2 + 1)) } := by
  unfold teamStep teamKeyOf
  split
  · simp_all
  · rename_i ht
    simp only [ht]
    split
    · rename_i hz
      split <;> simp_all [upd]
    · simp_all

theorem teamStep_snd (d : Data) (g : Game) (γ : String) (st : MState) (t : String) :
    (teamStep d g γ st t).2 =
      (if t ≠ "" ∧ st.teamCounts (teamKeyOf t γ) = 0 then [BadgeK.newTeam t γ] else []) ++
      (if t ≠ "" ∧ st.teamCounts (teamKeyOf t γ) = 0 ∧ isActualD1Team d t ∧ (setAdd (st.d1TeamsSeen γ) t).length ∈ D1_TEAM_MILESTONES then [BadgeK.d1Team γ (setAdd (st.d1TeamsSeen γ) t).length] else []) ++
      (if t ≠ "" ∧ 1 < st.teamCounts (teamKeyOf t γ) + 1 ∧ st.teamCounts (teamKeyOf t γ) + 1 ∈ MILESTONE_COUNTS then [BadgeK.teamVisit t γ (st.teamCounts (teamKeyOf t γ) + 1)] else []) := by
  unfold teamStep teamKeyOf
  split
  · simp_all
  · rename_i ht
    simp only [ht]
    split
    · rename_i hz
      split
      · split <;> simp_all
      · simp_all
    · simp_all

theorem confStep_fst (d : Data) (γ : String) (st : MState) (c t : String) :
    (confStep d γ st c t).1 =
      { st with confTeamsSeen := if c ≠ "" ∧ c ≠ "Historical/Other" then upd st.confTeamsSeen (c ++ "|" ++ γ) (setAdd (st.confTeamsSeen (c ++ "|" ++ γ)) t) else st.confTeamsSeen, confTeamCounts := if c ≠ "" ∧ c ≠ "Historical/Other" ∧ t ∉ st.confTeamsSeen (c ++ "|" ++ γ) then upd st.confTeamCounts c (st.confTeamCounts c + 1) else st.confTeamCounts, confCompleted := if c ≠ "" ∧ c ≠ "Historical/Other" ∧ 0 < conferenceTeamTotal d c ∧ conferenceTeamTotal d c ≤ (setAdd (st.confTeamsSeen (c ++ "|" ++ γ)) t).length ∧ st.confCompleted (c ++ "|" ++ γ) = false then upd st.confCompleted (c ++ "|" ++ γ) true else st.confCompleted } := by
  unfold confStep
  by_cases h1 : c = "" <;> by_cases h2 : c = "Historical/Other" <;>
    by_cases h3 : t ∈ st.confTeamsSeen (c ++ "|" ++ γ) <;>
    simp_all <;> (repeat' split) <;> simp_all

theorem confStep_snd (d : Data) (γ : String) (st : MState) (c t : String) :
    (confStep d γ st c t).2 =
      (if c ≠ "" ∧ c ≠ "Historical/Other" ∧ st.confTeamCounts c = 0 then [BadgeK.newConf c] else []) ++
      (if c ≠ "" ∧ c ≠ "Historical/Other" ∧ 0 < conferenceTeamTotal d c ∧ conferenceTeamTotal d c ≤ (setAdd (st.confTeamsSeen (c ++ "|" ++ γ)) t).length ∧ st.confCompleted (c ++ "|" ++ γ) = false then [BadgeK.confComplete c γ (conferenceTeamTotal d c)] else []) := by
  unfold confStep
  by_cases h1 : c = "" <;> by_cases h2 : c = "Historical/Other" <;>
    by_cases h3 : t ∈ st.confTeamsSeen (c ++ "|" ++ γ) <;>
    simp_all <;> (repeat' split) <;> simp_all

theorem transferStep_fst (d : Data) (ds : String) (st : MState) (pg : PlayerGame) :
    (transferStep d ds st pg).1 =
      { st with playerTeams := if (if pg.player_id ≠ "" then pg.player_id else pg.player) = "" ∨ pg.team = "" then st.playerTeams else upd st.playerTeams (if pg.player_id ≠ "" then pg.player_id else pg.player) (some ((playerEntry d ds st pg).1, setAdd (playerEntry d ds st pg).2 pg.team)) } := by
  unfold transferStep
  by_cases h1 : pg.player_id = "" <;> by_cases h2 : pg.player = "" <;>
    by_cases h3 : pg.team = "" <;> simp_all

theorem transferStep_snd (d : Data) (ds : String) (st : MState) (pg : PlayerGame) :
    (transferStep d ds st pg).2 =
      if ¬((if pg.player_id ≠ "" then pg.player_id else pg.player) = "" ∨ pg.team = "") ∧ (playerEntry d ds st pg).2 ≠ [] ∧ pg.team ∉ (playerEntry d ds st pg).2 then [BadgeK.transfer pg.player (playerEntry d ds st pg).2 pg.team] else [] := by
  unfold transferStep
  by_cases h1 : pg.player_id = "" <;> by_cases h2 : pg.player = "" <;>
    by_cases h3 : pg.team = "" <;> simp_all

theorem transferFold_fst_pres {α : Type} (d : Data) (ds : String) (f : MState → α)
    (hf : ∀ st pg, f ((transferStep d ds st pg).1) = f st) :
    ∀ pgs st, f ((transferFold d ds st pgs).1) = f st := by
  intro pgs
  induction pgs with
  | nil => intro st; rfl
  | cons pg pgs ih =>
    intro st
    show f ((transferFold d ds (transferStep d ds st pg).1 pgs).1) = f st
    rw [ih, hf]

theorem transferFold_badges_shape (d : Data) (ds : String) :
    ∀ pgs st b, b ∈ (transferFold d ds st pgs).2 → ∃ p pr t, b = BadgeK.transfer p pr t := by
  intro pgs
  induction pgs with
  | nil => intro st b hb; cases hb
  | cons pg pgs ih =>
    intro st b hb
    rcases List.mem_append.1 hb with hb | hb
    · rw [transferStep_snd] at hb
      by_cases hc : ¬((if pg.player_id ≠ "" then pg.player_id else pg.player) = "" ∨ pg.team = "") ∧ (playerEntry d ds st pg).2 ≠ [] ∧ pg.team ∉ (playerEntry d ds st pg).2
      · rw [if_pos hc] at hb
        refine ⟨pg.player, (playerEntry d ds st pg).2, pg.team, ?_⟩
        simpa using hb
      · rw [if_neg hc] at hb
        cases hb
    · exact ih _ b hb

theorem streakUpdate_venueCounts (st : MState) (ds : String) :
    (streakUpdate st ds).venueCounts = st.venueCounts := by
  unfold streakUpdate
  repeat' split
  all_goals rfl

theorem streakUpdate_venueOrder (st : MState) (ds : String) :
    (streakUpdate st ds).venueOrder = st.venueOrder := by
  unfold streakUpdate
  repeat' split
  all_goals rfl

theorem streakUpdate_d1VenuesSeen (st : MState) (ds : String) :
    (streakUpdate st ds).d1VenuesSeen = st.d1VenuesSeen := by
  unfold streakUpdate
  repeat' split
  all_goals rfl

theorem streakUpdate_d1VenueCount (st : MState) (ds : String) :
    (streakUpdate st ds).d1VenueCount = st.d1VenueCount := by
  unfold streakUpdate
  repeat' split
  all_goals rfl

theorem streakUpdate_confVenuesSeen (st : MState) (ds : String) :
    (streakUpdate st ds).confVenuesSeen = st.confVenuesSeen := by
  unfold streakUpdate
  repeat' split
  all_goals rfl

theorem streakUpdate_statesSeen (st : MState) (ds : String) :
    (streakUpdate st ds).statesSeen = st.statesSeen := by
  unfold streakUpdate
  repeat' split
  all_goals rfl

theorem streakUpdate_teamCounts (st : MState) (ds : String) :
    (streakUpdate st ds).teamCounts = st.teamCounts := by
  unfold streakUpdate
  repeat' split
  all_goals rfl

theorem streakUpdate_confTeamCounts (st : MState) (ds : String) :
    (streakUpdate st ds).confTeamCounts = st.confTeamCounts := by
  unfold streakUpdate
  repeat' split
  all_goals rfl

theorem streakUpdate_matchupsSeen (st : MState) (ds : String) :
    (streakUpdate st ds).matchupsSeen = st.matchupsSeen := by
  unfold streakUpdate
  repeat' split
  all_goals rfl

theorem streakUpdate_confTeamsSeen (st : MState) (ds : String) :
    (streakUpdate st ds).confTeamsSeen = st.confTeamsSeen := by
  unfold streakUpdate
  repeat' split
  all_goals rfl

theorem streakUpdate_confCompleted (st : MState) (ds : String) :
    (streakUpdate st ds).confCompleted = st.confCompleted := by
  unfold streakUpdate
  repeat' split
  all_goals rfl

theorem streakUpdate_gameCount (st : MState) (ds : String) :
    (streakUpdate st ds).gameCount = st.gameCount := by
  unfold streakUpdate
  repeat' split
  all_goals rfl

theorem streakUpdate_d1GameCount (st : MState) (ds : String) :
    (streakUpdate st ds).d1GameCount = st.d1GameCount := by
  unfold streakUpdate
  repeat' split
  all_goals rfl

theorem streakUpdate_d1TeamsSeen (st : MState) (ds : String) :
    (streakUpdate st ds).d1TeamsSeen = st.d1TeamsSeen := by
  unfold streakUpdate
  repeat' split
  all_goals rfl

theorem streakUpdate_playerTeams (st : MState) (ds : String) :
    (streakUpdate st ds).playerTeams = st.playerTeams := by
  unfold streakUpdate
  repeat' split
  all_goals rfl

theorem streakUpdate_teamRecords (st : MState) (ds : String) :
    (streakUpdate st ds).teamRecords = st.teamRecords := by
  unfold streakUpdate
  repeat' split
  all_goals rfl

theorem streakUpdate_confMatchupCounts (st : MState) (ds : String) :
    (streakUpdate st ds).confMatchupCounts = st.confMatchupCounts := by
  unfold streakUpdate
  repeat' split
  all_goals rfl

theorem streakUpdate_stateOrder (st : MState) (ds : String) :
    (streakUpdate st ds).stateOrder = st.stateOrder := by
  unfold streakUpdate
  repeat' split
  all_goals rfl

/-! ## Badge shape lemmas and counting helpers -/

theorem gameCountStep_shape (st : MState) :
    ∀ b ∈ (gameCountStep st).2, ∃ n, b = BadgeK.gameCount n := by
  rw [gameCountStep_snd]
  split <;> intro b hb
  · simp only [List.mem_singleton] at hb
    exact ⟨_, hb⟩
  · cases hb

theorem d1GameStep_shape (st : MState) (dv : String) :
    ∀ b ∈ (d1GameStep st dv).2, ∃ n, b = BadgeK.d1Game n := by
  rw [d1GameStep_snd]
  split <;> intro b hb
  · simp only [List.mem_singleton] at hb
    exact ⟨_, hb⟩
  · cases hb

theorem streakStep_shape (st : MState) (ds : String) :
    ∀ b ∈ (streakStep st ds).2, ∃ n, b = BadgeK.streak n := by
  rw [streakStep_snd]
  split <;> intro b hb
  · simp only [List.mem_singleton] at hb
    exact ⟨_, hb⟩
  · cases hb

theorem stateStep_shape (st : MState) (s : String) :
    ∀ b ∈ (stateStep st s).2, ∃ x n, b = BadgeK.newState x n := by
  rw [stateStep_snd]
  split <;> intro b hb
  · simp only [List.mem_singleton] at hb
    exact ⟨_, _, hb⟩
  · cases hb

theorem venueStep_shape (st : MState) (v dv : String) :
    ∀ b ∈ (venueStep st v dv).2,
      (∃ x n, b = BadgeK.venueCount x n) ∨ (∃ x n, b = BadgeK.venueVisit x n) := by
  rw [venueStep_snd]
  intro b hb
  rcases List.mem_append.1 hb with hb | hb <;> revert hb <;> split <;> intro hb
  · simp only [List.mem_singleton] at hb
    exact Or.inl ⟨_, _, hb⟩
  · cases hb
  · simp only [List.mem_singleton] at hb
    exact Or.inr ⟨_, _, hb⟩
  · cases hb

theorem teamStep_shape (d : Data) (g : Game) (γ : String) (st : MState) (t : String) :
    ∀ b ∈ (teamStep d g γ st t).2,
      (∃ x y, b = BadgeK.newTeam x y) ∨ (∃ x n, b = BadgeK.d1Team x n) ∨
      (∃ x y n, b = BadgeK.teamVisit x y n) := by
  rw [teamStep_snd]
  intro b hb
  rcases List.mem_append.1 hb with hb | hb
  · rcases List.mem_append.1 hb with hb | hb <;> revert hb <;> split <;> intro hb
    · simp only [List.mem_singleton] at hb
      exact Or.inl ⟨_, _, hb⟩
    · cases hb
    · simp only [List.mem_singleton] at hb
      exact Or.inr (Or.inl ⟨_, _, hb⟩)
    · cases hb
  · revert hb
    split <;> intro hb
    · simp only [List.mem_singleton] at hb
      exact Or.inr (Or.inr ⟨_, _, _, hb⟩)
    · cases hb

theorem confStep_shape (d : Data) (γ : String) (st : MState) (c t : String) :
    ∀ b ∈ (confStep d γ st c t).2,
      (b = BadgeK.newConf c ∧ c ≠ "" ∧ c ≠ "Historical/Other" ∧ st.confTeamCounts c = 0) ∨
      (b = BadgeK.confComplete c γ (conferenceTeamTotal d c) ∧ c ≠ "" ∧ c ≠ "Historical/Other" ∧ 0 < conferenceTeamTotal d c ∧ st.confCompleted (c ++ "|" ++ γ) = false) := by
  rw [confStep_snd]
  intro b hb
  rcases List.mem_append.1 hb with hb | hb <;> revert hb <;> split <;> intro hb
  · simp only [List.mem_singleton] at hb
    rename_i hc
    exact Or.inl ⟨hb, hc.1, hc.2.1, hc.2.2⟩
  · cases hb
  · simp only [List.mem_singleton] at hb
    rename_i hc
    exact Or.inr ⟨hb, hc.1, hc.2.1, hc.2.2.1, hc.2.2.2.2⟩
  · cases hb

theorem matchupStep_shape (st : MState) (aT hT γ : String) :
    ∀ b ∈ (matchupStep st aT hT γ).2, b = BadgeK.newMatchup aT hT γ := by
  rw [matchupStep_snd]
  split <;> intro b hb
  · simp only [List.mem_singleton] at hb
    exact hb
  · cases hb

theorem confMatchupStep_shape (st : MState) (aC hC : String) :
    ∀ b ∈ (confMatchupStep st aC hC).2, b = BadgeK.confMatchup aC hC := by
  rw [confMatchupStep_snd]
  split <;> intro b hb
  · simp only [List.mem_singleton] at hb
    exact hb
  · cases hb

theorem countP_zero_of_shape {P : BadgeK → Prop} (l : List BadgeK) (p : BadgeK → Bool)
    (hl : ∀ b ∈ l, P b) (hp : ∀ b, P b → p b = false) : l.countP p = 0 :=
  List.countP_eq_zero.2 fun b hb => by simp [hp b (hl b hb)]

theorem filter_nil_of_shape {P : BadgeK → Prop} (l : List BadgeK) (p : BadgeK → Bool)
    (hl : ∀ b ∈ l, P b) (hp : ∀ b, P b → p b = false) : l.filter p = [] :=
  List.filter_eq_nil_iff.2 fun b hb => by simp [hp b (hl b hb)]

theorem streakUpdate_counts_comm (st : MState) (gc dgc : Nat) (ds : String) :
    streakUpdate { st with gameCount := gc, d1GameCount := dgc } ds =
      { streakUpdate st ds with gameCount := gc, d1GameCount := dgc } := by
  unfold streakUpdate
  dsimp only
  repeat' split
  all_goals rfl

theorem transferFold_currentStreak (d : Data) (ds : String) (pgs : List PlayerGame) (st : MState) :
    (transferFold d ds st pgs).1.currentStreak = st.currentStreak :=
  transferFold_fst_pres d ds MState.currentStreak (fun st pg => by rw [transferStep_fst]) pgs st

theorem transferFold_lastGameDate (d : Data) (ds : String) (pgs : List PlayerGame) (st : MState) :
    (transferFold d ds st pgs).1.lastGameDate = st.lastGameDate :=
  transferFold_fst_pres d ds MState.lastGameDate (fun st pg => by rw [transferStep_fst]) pgs st

theorem transferFold_maxStreak (d : Data) (ds : String) (pgs : List PlayerGame) (st : MState) :
    (transferFold d ds st pgs).1.maxStreak = st.maxStreak :=
  transferFold_fst_pres d ds MState.maxStreak (fun st pg => by rw [transferStep_fst]) pgs st

theorem transferFold_streakHistory (d : Data) (ds : String) (pgs : List PlayerGame) (st : MState) :
    (transferFold d ds st pgs).1.streakHistory = st.streakHistory :=
  transferFold_fst_pres d ds MState.streakHistory (fun st pg => by rw [transferStep_fst]) pgs st

theorem transferFold_venueCounts (d : Data) (ds : String) (pgs : List PlayerGame) (st : MState) :
    (transferFold d ds st pgs).1.venueCounts = st.venueCounts :=
  transferFold_fst_pres d ds MState.venueCounts (fun st pg => by rw [transferStep_fst]) pgs st

theorem transferFold_venueOrder (d : Data) (ds : String) (pgs : List PlayerGame) (st : MState) :
    (transferFold d ds st pgs).1.venueOrder = st.venueOrder :=
  transferFold_fst_pres d ds MState.venueOrder (fun st pg => by rw [transferStep_fst]) pgs st

theorem transferFold_d1VenuesSeen (d : Data) (ds : String) (pgs : List PlayerGame) (st : MState) :
    (transferFold d ds st pgs).1.d1VenuesSeen = st.d1VenuesSeen :=
  transferFold_fst_pres d ds MState.d1VenuesSeen (fun st pg => by rw [transferStep_fst]) pgs st

theorem transferFold_d1VenueCount (d : Data) (ds : String) (pgs : List PlayerGame) (st : MState) :
    (transferFold d ds st pgs).1.d1VenueCount = st.d1VenueCount :=
  transferFold_fst_pres d ds MState.d1VenueCount (fun st pg => by rw [transferStep_fst]) pgs st

theorem transferFold_confVenuesSeen (d : Data) (ds : String) (pgs : List PlayerGame) (st : MState) :
    (transferFold d ds st pgs).1.confVenuesSeen = st.confVenuesSeen :=
  transferFold_fst_pres d ds MState.confVenuesSeen (fun st pg => by rw [transferStep_fst]) pgs st

theorem transferFold_statesSeen (d : Data) (ds : String) (pgs : List PlayerGame) (st : MState) :
    (transferFold d ds st pgs).1.statesSeen = st.statesSeen :=
  transferFold_fst_pres d ds MState.statesSeen (fun st pg => by rw [transferStep_fst]) pgs st

theorem transferFold_teamCounts (d : Data) (ds : String) (pgs : List PlayerGame) (st : MState) :
    (transferFold d ds st pgs).1.teamCounts = st.teamCounts :=
  transferFold_fst_pres d ds MState.teamCounts (fun st pg => by rw [transferStep_fst]) pgs st

theorem transferFold_confTeamCounts (d : Data) (ds : String) (pgs : List PlayerGame) (st : MState) :
    (transferFold d ds st pgs).1.confTeamCounts = st.confTeamCounts :=
  transferFold_fst_pres d ds MState.confTeamCounts (fun st pg => by rw [transferStep_fst]) pgs st

theorem transferFold_matchupsSeen (d : Data) (ds : String) (pgs : List PlayerGame) (st : MState) :
    (transferFold d ds st pgs).1.matchupsSeen = st.matchupsSeen :=
  transferFold_fst_pres d ds MState.matchupsSeen (fun st pg => by rw [transferStep_fst]) pgs st

theorem transferFold_confTeamsSeen (d : Data) (ds : String) (pgs : List PlayerGame) (st : MState) :
    (transferFold d ds st pgs).1.confTeamsSeen = st.confTeamsSeen :=
  transferFold_fst_pres d ds MState.confTeamsSeen (fun st pg => by rw [transferStep_fst]) pgs st

theorem transferFold_confCompleted (d : Data) (ds : String) (pgs : List PlayerGame) (st : MState) :
    (transferFold d ds st pgs).1.confCompleted = st.confCompleted :=
  transferFold_fst_pres d ds MState.confCompleted (fun st pg => by rw [transferStep_fst]) pgs st

/-! ## `processGame`-level state characterizations -/

theorem processGame_currentStreak (d : Data) (st : MState) (i : Nat) (g : Game) :
    (processGame d st i g).1.currentStreak = (streakUpdate st g.DateSort).currentStreak := by
  unfold processGame
  simp only [transferFold_currentStreak, gameCountStep_fst, d1GameStep_fst, streakStep_fst, streakUpdate_counts_comm, stateStep_fst, venueStep_fst, teamStep_fst, confStep_fst, matchupStep_fst, confMatchupStep_fst, confVenueStep_eq, streakUpdate_venueCounts, streakUpdate_venueOrder, streakUpdate_d1VenuesSeen, streakUpdate_d1VenueCount, streakUpdate_confVenuesSeen, streakUpdate_statesSeen, streakUpdate_teamCounts, streakUpdate_confTeamCounts, streakUpdate_matchupsSeen, streakUpdate_confTeamsSeen, streakUpdate_confCompleted]

theorem processGame_lastGameDate (d : Data) (st : MState) (i : Nat) (g : Game) :
    (processGame d st i g).1.lastGameDate = (streakUpdate st g.DateSort).lastGameDate := by
  unfold processGame
  simp only [transferFold_lastGameDate, gameCountStep_fst, d1GameStep_fst, streakStep_fst, streakUpdate_counts_comm, stateStep_fst, venueStep_fst, teamStep_fst, confStep_fst, matchupStep_fst, confMatchupStep_fst, confVenueStep_eq, streakUpdate_venueCounts, streakUpdate_venueOrder, streakUpdate_d1VenuesSeen, streakUpdate_d1VenueCount, streakUpdate_confVenuesSeen, streakUpdate_statesSeen, streakUpdate_teamCounts, streakUpdate_confTeamCounts, streakUpdate_matchupsSeen, streakUpdate_confTeamsSeen, streakUpdate_confCompleted]

theorem processGame_maxStreak (d : Data) (st : MState) (i : Nat) (g : Game) :
    (processGame d st i g).1.maxStreak = (streakUpdate st g.DateSort).maxStreak := by
  unfold processGame
  simp only [transferFold_maxStreak, gameCountStep_fst, d1GameStep_fst, streakStep_fst, streakUpdate_counts_comm, stateStep_fst, venueStep_fst, teamStep_fst, confStep_fst, matchupStep_fst, confMatchupStep_fst, confVenueStep_eq, streakUpdate_venueCounts, streakUpdate_venueOrder, streakUpdate_d1VenuesSeen, streakUpdate_d1VenueCount, streakUpdate_confVenuesSeen, streakUpdate_statesSeen, streakUpdate_teamCounts, streakUpdate_confTeamCounts, streakUpdate_matchupsSeen, streakUpdate_confTeamsSeen, streakUpdate_confCompleted]

theorem processGame_streakHistory (d : Data) (st : MState) (i : Nat) (g : Game) :
    (processGame d st i g).1.streakHistory = (streakUpdate st g.DateSort).streakHistory := by
  unfold processGame
  simp only [transferFold_streakHistory, gameCountStep_fst, d1GameStep_fst, streakStep_fst, streakUpdate_counts_comm, stateStep_fst, venueStep_fst, teamStep_fst, confStep_fst, matchupStep_fst, confMatchupStep_fst, confVenueStep_eq, streakUpdate_venueCounts, streakUpdate_venueOrder, streakUpdate_d1VenuesSeen, streakUpdate_d1VenueCount, streakUpdate_confVenuesSeen, streakUpdate_statesSeen, streakUpdate_teamCounts, streakUpdate_confTeamCounts, streakUpdate_matchupsSeen, streakUpdate_confTeamsSeen, streakUpdate_confCompleted]

theorem processGame_statesSeen (d : Data) (st : MState) (i : Nat) (g : Game) :
    (processGame d st i g).1.statesSeen =
      if g.State ≠ "" ∧ g.State ∉ st.statesSeen then st.statesSeen ++ [g.State] else st.statesSeen := by
  unfold processGame
  simp only [transferFold_statesSeen, gameCountStep_fst, d1GameStep_fst, streakStep_fst, streakUpdate_counts_comm, stateStep_fst, venueStep_fst, teamStep_fst, confStep_fst, matchupStep_fst, confMatchupStep_fst, confVenueStep_eq, streakUpdate_venueCounts, streakUpdate_venueOrder, streakUpdate_d1VenuesSeen, streakUpdate_d1VenueCount, streakUpdate_confVenuesSeen, streakUpdate_statesSeen, streakUpdate_teamCounts, streakUpdate_confTeamCounts, streakUpdate_matchupsSeen, streakUpdate_confTeamsSeen, streakUpdate_confCompleted]

theorem processGame_venueCounts (d : Data) (st : MState) (i : Nat) (g : Game) :
    (processGame d st i g).1.venueCounts =
      if g.Venue = "" then st.venueCounts else upd st.venueCounts g.Venue (st.venueCounts g.Venue + 1) := by
  unfold processGame
  simp only [transferFold_venueCounts, gameCountStep_fst, d1GameStep_fst, streakStep_fst, streakUpdate_counts_comm, stateStep_fst, venueStep_fst, teamStep_fst, confStep_fst, matchupStep_fst, confMatchupStep_fst, confVenueStep_eq, streakUpdate_venueCounts, streakUpdate_venueOrder, streakUpdate_d1VenuesSeen, streakUpdate_d1VenueCount, streakUpdate_confVenuesSeen, streakUpdate_statesSeen, streakUpdate_teamCounts, streakUpdate_confTeamCounts, streakUpdate_matchupsSeen, streakUpdate_confTeamsSeen, streakUpdate_confCompleted]

theorem processGame_venueOrder (d : Data) (st : MState) (i : Nat) (g : Game) :
    (processGame d st i g).1.venueOrder =
      if g.Venue ≠ "" ∧ st.venueCounts g.Venue = 0 then st.venueOrder ++ [g.Venue] else st.venueOrder := by
  unfold processGame
  simp only [transferFold_venueOrder, gameCountStep_fst, d1GameStep_fst, streakStep_fst, streakUpdate_counts_comm, stateStep_fst, venueStep_fst, teamStep_fst, confStep_fst, matchupStep_fst, confMatchupStep_fst, confVenueStep_eq, streakUpdate_venueCounts, streakUpdate_venueOrder, streakUpdate_d1VenuesSeen, streakUpdate_d1VenueCount, streakUpdate_confVenuesSeen, streakUpdate_statesSeen, streakUpdate_teamCounts, streakUpdate_confTeamCounts, streakUpdate_matchupsSeen, streakUpdate_confTeamsSeen, streakUpdate_confCompleted]

theorem processGame_d1VenuesSeen (d : Data) (st : MState) (i : Nat) (g : Game) :
    (processGame d st i g).1.d1VenuesSeen =
      if g.Venue ≠ "" ∧ st.venueCounts g.Venue = 0 ∧ (if g.Division = "" then "D1" else g.Division) = "D1" ∧ g.Venue ∉ st.d1VenuesSeen then st.d1VenuesSeen ++ [g.Venue] else st.d1VenuesSeen := by
  unfold processGame
  simp only [transferFold_d1VenuesSeen, gameCountStep_fst, d1GameStep_fst, streakStep_fst, streakUpdate_counts_comm, stateStep_fst, venueStep_fst, teamStep_fst, confStep_fst, matchupStep_fst, confMatchupStep_fst, confVenueStep_eq, streakUpdate_venueCounts, streakUpdate_venueOrder, streakUpdate_d1VenuesSeen, streakUpdate_d1VenueCount, streakUpdate_confVenuesSeen, streakUpdate_statesSeen, streakUpdate_teamCounts, streakUpdate_confTeamCounts, streakUpdate_matchupsSeen, streakUpdate_confTeamsSeen, streakUpdate_confCompleted]

theorem processGame_d1VenueCount (d : Data) (st : MState) (i : Nat) (g : Game) :
    (processGame d st i g).1.d1VenueCount =
      if g.Venue ≠ "" ∧ st.venueCounts g.Venue = 0 ∧ (if g.Division = "" then "D1" else g.Division) = "D1" ∧ g.Venue ∉ st.d1VenuesSeen then st.d1VenueCount + 1 else st.d1VenueCount := by
  unfold processGame
  simp only [transferFold_d1VenueCount, gameCountStep_fst, d1GameStep_fst, streakStep_fst, streakUpdate_counts_comm, stateStep_fst, venueStep_fst, teamStep_fst, confStep_fst, matchupStep_fst, confMatchupStep_fst, confVenueStep_eq, streakUpdate_venueCounts, streakUpdate_venueOrder, streakUpdate_d1VenuesSeen, streakUpdate_d1VenueCount, streakUpdate_confVenuesSeen, streakUpdate_statesSeen, streakUpdate_teamCounts, streakUpdate_confTeamCounts, streakUpdate_matchupsSeen, streakUpdate_confTeamsSeen, streakUpdate_confCompleted]

theorem processGame_confVenuesSeen (d : Data) (st : MState) (i : Nat) (g : Game) :
    (processGame d st i g).1.confVenuesSeen =
      if g.Venue ≠ "" ∧ homeConference d g ≠ "" ∧ homeConference d g ≠ "Historical/Other" then upd st.confVenuesSeen (homeConference d g ++ "|" ++ g.Venue) true else st.confVenuesSeen := by
  unfold processGame
  simp only [transferFold_confVenuesSeen, gameCountStep_fst, d1GameStep_fst, streakStep_fst, streakUpdate_counts_comm, stateStep_fst, venueStep_fst, teamStep_fst, confStep_fst, matchupStep_fst, confMatchupStep_fst, confVenueStep_eq, streakUpdate_venueCounts, streakUpdate_venueOrder, streakUpdate_d1VenuesSeen, streakUpdate_d1VenueCount, streakUpdate_confVenuesSeen, streakUpdate_statesSeen, streakUpdate_teamCounts, streakUpdate_confTeamCounts, streakUpdate_matchupsSeen, streakUpdate_confTeamsSeen, streakUpdate_confCompleted]

/-! ## Per-step counting lemmas -/

theorem countP_streakB_gameCountStep (st : MState) :
    ((gameCountStep st).2).countP isStreakB = 0 :=
  countP_zero_of_shape _ _ (gameCountStep_shape st) (by intro b h; obtain ⟨n, rfl⟩ := h; rfl)

theorem countP_streakB_d1GameStep (st : MState) (dv : String) :
    ((d1GameStep st dv).2).countP isStreakB = 0 :=
  countP_zero_of_shape _ _ (d1GameStep_shape st dv) (by intro b h; obtain ⟨n, rfl⟩ := h; rfl)

theorem countP_streakB_stateStep (st : MState) (x : String) :
    ((stateStep st x).2).countP isStreakB = 0 :=
  countP_zero_of_shape _ _ (stateStep_shape st x) (by intro b h; obtain ⟨y, n, rfl⟩ := h; rfl)

theorem countP_streakB_venueStep (st : MState) (v dv : String) :
    ((venueStep st v dv).2).countP isStreakB = 0 :=
  countP_zero_of_shape _ _ (venueStep_shape st v dv) (by intro b h; rcases h with ⟨y, n, rfl⟩ | ⟨y, n, rfl⟩ <;> rfl)

theorem countP_streakB_teamStep (d : Data) (g : Game) (γ : String) (st : MState) (t : String) :
    ((teamStep d g γ st t).2).countP isStreakB = 0 :=
  countP_zero_of_shape _ _ (teamStep_shape d g γ st t) (by intro b h; rcases h with ⟨x, y, rfl⟩ | ⟨x, n, rfl⟩ | ⟨x, y, n, rfl⟩ <;> rfl)

theorem countP_streakB_confStep (d : Data) (γ : String) (st : MState) (c t : String) :
    ((confStep d γ st c t).2).countP isStreakB = 0 :=
  countP_zero_of_shape _ _ (confStep_shape d γ st c t) (by intro b h; rcases h with ⟨rfl, -⟩ | ⟨rfl, -⟩ <;> rfl)

theorem countP_streakB_matchupStep (st : MState) (aT hT γ : String) :
    ((matchupStep st aT hT γ).2).countP isStreakB = 0 :=
  countP_zero_of_shape _ _ (matchupStep_shape st aT hT γ) (by intro b h; subst h; rfl)

theorem countP_streakB_confMatchupStep (st : MState) (aC hC : String) :
    ((confMatchupStep st aC hC).2).countP isStreakB = 0 :=
  countP_zero_of_shape _ _ (confMatchupStep_shape st aC hC) (by intro b h; subst h; rfl)

theorem countP_streakB_transferFold (d : Data) (ds : String) (pgs : List PlayerGame) (st : MState) :
    ((transferFold d ds st pgs).2).countP isStreakB = 0 :=
  countP_zero_of_shape _ _ (fun b hb => transferFold_badges_shape d ds pgs st b hb) (by intro b h; obtain ⟨x, y, z, rfl⟩ := h; rfl)

theorem countP_venueB_gameCountStep (st : MState) :
    ((gameCountStep st).2).countP isVenueB = 0 :=
  countP_zero_of_shape _ _ (gameCountStep_shape st) (by intro b h; obtain ⟨n, rfl⟩ := h; rfl)

theorem countP_venueB_d1GameStep (st : MState) (dv : String) :
    ((d1GameStep st dv).2).countP isVenueB = 0 :=
  countP_zero_of_shape _ _ (d1GameStep_shape st dv) (by intro b h; obtain ⟨n, rfl⟩ := h; rfl)

theorem countP_venueB_streakStep (st : MState) (ds : String) :
    ((streakStep st ds).2).countP isVenueB = 0 :=
  countP_zero_of_shape _ _ (streakStep_shape st ds) (by intro b h; obtain ⟨n, rfl⟩ := h; rfl)

theorem countP_venueB_stateStep (st : MState) (x : String) :
    ((stateStep st x).2).countP isVenueB = 0 :=
  countP_zero_of_shape _ _ (stateStep_shape st x) (by intro b h; obtain ⟨y, n, rfl⟩ := h; rfl)

theorem countP_venueB_teamStep (d : Data) (g : Game) (γ : String) (st : MState) (t : String) :
    ((teamStep d g γ st t).2).countP isVenueB = 0 :=
  countP_zero_of_shape _ _ (teamStep_shape d g γ st t) (by intro b h; rcases h with ⟨x, y, rfl⟩ | ⟨x, n, rfl⟩ | ⟨x, y, n, rfl⟩ <;> rfl)

theorem countP_venueB_confStep (d : Data) (γ : String) (st : MState) (c t : String) :
    ((confStep d γ st c t).2).countP isVenueB = 0 :=
  countP_zero_of_shape _ _ (confStep_shape d γ st c t) (by intro b h; rcases h with ⟨rfl, -⟩ | ⟨rfl, -⟩ <;> rfl)

theorem countP_venueB_matchupStep (st : MState) (aT hT γ : String) :
    ((matchupStep st aT hT γ).2).countP isVenueB = 0 :=
  countP_zero_of_shape _ _ (matchupStep_shape st aT hT γ) (by intro b h; subst h; rfl)

theorem countP_venueB_confMatchupStep (st : MState) (aC hC : String) :
    ((confMatchupStep st aC hC).2).countP isVenueB = 0 :=
  countP_zero_of_shape _ _ (confMatchupStep_shape st aC hC) (by intro b h; subst h; rfl)

theorem countP_venueB_transferFold (d : Data) (ds : String) (pgs : List PlayerGame) (st : MState) :
    ((transferFold d ds st pgs).2).countP isVenueB = 0 :=
  countP_zero_of_shape _ _ (fun b hb => transferFold_badges_shape d ds pgs st b hb) (by intro b h; obtain ⟨x, y, z, rfl⟩ := h; rfl)

theorem countP_newState_gameCountStep (s : String) (st : MState) :
    ((gameCountStep st).2).countP (isNewStateFor s) = 0 :=
  countP_zero_of_shape _ _ (gameCountStep_shape st) (by intro b h; obtain ⟨n, rfl⟩ := h; rfl)

theorem countP_newState_d1GameStep (s : String) (st : MState) (dv : String) :
    ((d1GameStep st dv).2).countP (isNewStateFor s) = 0 :=
  countP_zero_of_shape _ _ (d1GameStep_shape st dv) (by intro b h; obtain ⟨n, rfl⟩ := h; rfl)

theorem countP_newState_streakStep (s : String) (st : MState) (ds : String) :
    ((streakStep st ds).2).countP (isNewStateFor s) = 0 :=
  countP_zero_of_shape _ _ (streakStep_shape st ds) (by intro b h; obtain ⟨n, rfl⟩ := h; rfl)

theorem countP_newState_venueStep (s : String) (st : MState) (v dv : String) :
    ((venueStep st v dv).2).countP (isNewStateFor s) = 0 :=
  countP_zero_of_shape _ _ (venueStep_shape st v dv) (by intro b h; rcases h with ⟨y, n, rfl⟩ | ⟨y, n, rfl⟩ <;> rfl)

theorem countP_newState_teamStep (s : String) (d : Data) (g : Game) (γ : String) (st : MState) (t : String) :
    ((teamStep d g γ st t).2).countP (isNewStateFor s) = 0 :=
  countP_zero_of_shape _ _ (teamStep_shape d g γ st t) (by intro b h; rcases h with ⟨x, y, rfl⟩ | ⟨x, n, rfl⟩ | ⟨x, y, n, rfl⟩ <;> rfl)

theorem countP_newState_confStep (s : String) (d : Data) (γ : String) (st : MState) (c t : String) :
    ((confStep d γ st c t).2).countP (isNewStateFor s) = 0 :=
  countP_zero_of_shape _ _ (confStep_shape d γ st c t) (by intro b h; rcases h with ⟨rfl, -⟩ | ⟨rfl, -⟩ <;> rfl)

theorem countP_newState_matchupStep (s : String) (st : MState) (aT hT γ : String) :
    ((matchupStep st aT hT γ).2).countP (isNewStateFor s) = 0 :=
  countP_zero_of_shape _ _ (matchupStep_shape st aT hT γ) (by intro b h; subst h; rfl)

theorem countP_newState_confMatchupStep (s : String) (st : MState) (aC hC : String) :
    ((confMatchupStep st aC hC).2).countP (isNewStateFor s) = 0 :=
  countP_zero_of_shape _ _ (confMatchupStep_shape st aC hC) (by intro b h; subst h; rfl)

theorem countP_newState_transferFold (s : String) (d : Data) (ds : String) (pgs : List PlayerGame) (st : MState) :
    ((transferFold d ds st pgs).2).countP (isNewStateFor s) = 0 :=
  countP_zero_of_shape _ _ (fun b hb => transferFold_badges_shape d ds pgs st b hb) (by intro b h; obtain ⟨x, y, z, rfl⟩ := h; rfl)

theorem countP_newTeam_gameCountStep (k : String) (st : MState) :
    ((gameCountStep st).2).countP (isNewTeamKey k) = 0 :=
  countP_zero_of_shape _ _ (gameCountStep_shape st) (by intro b h; obtain ⟨n, rfl⟩ := h; rfl)

theorem countP_newTeam_d1GameStep (k : String) (st : MState) (dv : String) :
    ((d1GameStep st dv).2).countP (isNewTeamKey k) = 0 :=
  countP_zero_of_shape _ _ (d1GameStep_shape st dv) (by intro b h; obtain ⟨n, rfl⟩ := h; rfl)

theorem countP_newTeam_streakStep (k : String) (st : MState) (ds : String) :
    ((streakStep st ds).2).countP (isNewTeamKey k) = 0 :=
  countP_zero_of_shape _ _ (streakStep_shape st ds) (by intro b h; obtain ⟨n, rfl⟩ := h; rfl)

theorem countP_newTeam_stateStep (k : String) (st : MState) (x : String) :
    ((stateStep st x).2).countP (isNewTeamKey k) = 0 :=
  countP_zero_of_shape _ _ (stateStep_shape st x) (by intro b h; obtain ⟨y, n, rfl⟩ := h; rfl)

theorem countP_newTeam_venueStep (k : String) (st : MState) (v dv : String) :
    ((venueStep st v dv).2).countP (isNewTeamKey k) = 0 :=
  countP_zero_of_shape _ _ (venueStep_shape st v dv) (by intro b h; rcases h with ⟨y, n, rfl⟩ | ⟨y, n, rfl⟩ <;> rfl)

theorem countP_newTeam_confStep (k : String) (d : Data) (γ : String) (st : MState) (c t : String) :
    ((confStep d γ st c t).2).countP (isNewTeamKey k) = 0 :=
  countP_zero_of_shape _ _ (confStep_shape d γ st c t) (by intro b h; rcases h with ⟨rfl, -⟩ | ⟨rfl, -⟩ <;> rfl)

theorem countP_newTeam_matchupStep (k : String) (st : MState) (aT hT γ : String) :
    ((matchupStep st aT hT γ).2).countP (isNewTeamKey k) = 0 :=
  countP_zero_of_shape _ _ (matchupStep_shape st aT hT γ) (by intro b h; subst h; rfl)

theorem countP_newTeam_confMatchupStep (k : String) (st : MState) (aC hC : String) :
    ((confMatchupStep st aC hC).2).countP (isNewTeamKey k) = 0 :=
  countP_zero_of_shape _ _ (confMatchupStep_shape st aC hC) (by intro b h; subst h; rfl)

theorem countP_newTeam_transferFold (k : String) (d : Data) (ds : String) (pgs : List PlayerGame) (st : MState) :
    ((transferFold d ds st pgs).2).countP (isNewTeamKey k) = 0 :=
  countP_zero_of_shape _ _ (fun b hb => transferFold_badges_shape d ds pgs st b hb) (by intro b h; obtain ⟨x, y, z, rfl⟩ := h; rfl)

theorem countP_newConf_gameCountStep (c0 : String) (st : MState) :
    ((gameCountStep st).2).countP (isNewConfFor c0) = 0 :=
  countP_zero_of_shape _ _ (gameCountStep_shape st) (by intro b h; obtain ⟨n, rfl⟩ := h; rfl)

theorem countP_newConf_d1GameStep (c0 : String) (st : MState) (dv : String) :
    ((d1GameStep st dv).2).countP (isNewConfFor c0) = 0 :=
  countP_zero_of_shape _ _ (d1GameStep_shape st dv) (by intro b h; obtain ⟨n, rfl⟩ := h; rfl)

theorem countP_newConf_streakStep (c0 : String) (st : MState) (ds : String) :
    ((streakStep st ds).2).countP (isNewConfFor c0) = 0 :=
  countP_zero_of_shape _ _ (streakStep_shape st ds) (by intro b h; obtain ⟨n, rfl⟩ := h; rfl)

theorem countP_newConf_stateStep (c0 : String) (st : MState) (x : String) :
    ((stateStep st x).2).countP (isNewConfFor c0) = 0 :=
  countP_zero_of_shape _ _ (stateStep_shape st x) (by intro b h; obtain ⟨y, n, rfl⟩ := h; rfl)

theorem countP_newConf_venueStep (c0 : String) (st : MState) (v dv : String) :
    ((venueStep st v dv).2).countP (isNewConfFor c0) = 0 :=
  countP_zero_of_shape _ _ (venueStep_shape st v dv) (by intro b h; rcases h with ⟨y, n, rfl⟩ | ⟨y, n, rfl⟩ <;> rfl)

theorem countP_newConf_teamStep (c0 : String) (d : Data) (g : Game) (γ : String) (st : MState) (t : String) :
    ((teamStep d g γ st t).2).countP (isNewConfFor c0) = 0 :=
  countP_zero_of_shape _ _ (teamStep_shape d g γ st t) (by intro b h; rcases h with ⟨x, y, rfl⟩ | ⟨x, n, rfl⟩ | ⟨x, y, n, rfl⟩ <;> rfl)

theorem countP_newConf_matchupStep (c0 : String) (st : MState) (aT hT γ : String) :
    ((matchupStep st aT hT γ).2).countP (isNewConfFor c0) = 0 :=
  countP_zero_of_shape _ _ (matchupStep_shape st aT hT γ) (by intro b h; subst h; rfl)

theorem countP_newConf_confMatchupStep (c0 : String) (st : MState) (aC hC : String) :
    ((confMatchupStep st aC hC).2).countP (isNewConfFor c0) = 0 :=
  countP_zero_of_shape _ _ (confMatchupStep_shape st aC hC) (by intro b h; subst h; rfl)

theorem countP_newConf_transferFold (c0 : String) (d : Data) (ds : String) (pgs : List PlayerGame) (st : MState) :
    ((transferFold d ds st pgs).2).countP (isNewConfFor c0) = 0 :=
  countP_zero_of_shape _ _ (fun b hb => transferFold_badges_shape d ds pgs st b hb) (by intro b h; obtain ⟨x, y, z, rfl⟩ := h; rfl)

theorem countP_newMatchup_gameCountStep (k : String) (st : MState) :
    ((gameCountStep st).2).countP (isNewMatchupKey k) = 0 :=
  countP_zero_of_shape _ _ (gameCountStep_shape st) (by intro b h; obtain ⟨n, rfl⟩ := h; rfl)

theorem countP_newMatchup_d1GameStep (k : String) (st : MState) (dv : String) :
    ((d1GameStep st dv).2).countP (isNewMatchupKey k) = 0 :=
  countP_zero_of_shape _ _ (d1GameStep_shape st dv) (by intro b h; obtain ⟨n, rfl⟩ := h; rfl)

theorem countP_newMatchup_streakStep (k : String) (st : MState) (ds : String) :
    ((streakStep st ds).2).countP (isNewMatchupKey k) = 0 :=
  countP_zero_of_shape _ _ (streakStep_shape st ds) (by intro b h; obtain ⟨n, rfl⟩ := h; rfl)

theorem countP_newMatchup_stateStep (k : String) (st : MState) (x : String) :
    ((stateStep st x).2).countP (isNewMatchupKey k) = 0 :=
  countP_zero_of_shape _ _ (stateStep_shape st x) (by intro b h; obtain ⟨y, n, rfl⟩ := h; rfl)

theorem countP_newMatchup_venueStep (k : String) (st : MState) (v dv : String) :
    ((venueStep st v dv).2).countP (isNewMatchupKey k) = 0 :=
  countP_zero_of_shape _ _ (venueStep_shape st v dv) (by intro b h; rcases h with ⟨y, n, rfl⟩ | ⟨y, n, rfl⟩ <;> rfl)

theorem countP_newMatchup_teamStep (k : String) (d : Data) (g : Game) (γ : String) (st : MState) (t : String) :
    ((teamStep d g γ st t).2).countP (isNewMatchupKey k) = 0 :=
  countP_zero_of_shape _ _ (teamStep_shape d g γ st t) (by intro b h; rcases h with ⟨x, y, rfl⟩ | ⟨x, n, rfl⟩ | ⟨x, y, n, rfl⟩ <;> rfl)

theorem countP_newMatchup_confStep (k : String) (d : Data) (γ : String) (st : MState) (c t : String) :
    ((confStep d γ st c t).2).countP (isNewMatchupKey k) = 0 :=
  countP_zero_of_shape _ _ (confStep_shape d γ st c t) (by intro b h; rcases h with ⟨rfl, -⟩ | ⟨rfl, -⟩ <;> rfl)

theorem countP_newMatchup_confMatchupStep (k : String) (st : MState) (aC hC : String) :
    ((confMatchupStep st aC hC).2).countP (isNewMatchupKey k) = 0 :=
  countP_zero_of_shape _ _ (confMatchupStep_shape st aC hC) (by intro b h; subst h; rfl)

theorem countP_newMatchup_transferFold (k : String) (d : Data) (ds : String) (pgs : List PlayerGame) (st : MState) :
    ((transferFold d ds st pgs).2).countP (isNewMatchupKey k) = 0 :=
  countP_zero_of_shape _ _ (fun b hb => transferFold_badges_shape d ds pgs st b hb) (by intro b h; obtain ⟨x, y, z, rfl⟩ := h; rfl)

theorem countP_confCompleteKey_gameCountStep (k : String) (st : MState) :
    ((gameCountStep st).2).countP (isConfCompleteKey k) = 0 :=
  countP_zero_of_shape _ _ (gameCountStep_shape st) (by intro b h; obtain ⟨n, rfl⟩ := h; rfl)

theorem countP_confCompleteKey_d1GameStep (k : String) (st : MState) (dv : String) :
    ((d1GameStep st dv).2).countP (isConfCompleteKey k) = 0 :=
  countP_zero_of_shape _ _ (d1GameStep_shape st dv) (by intro b h; obtain ⟨n, rfl⟩ := h; rfl)

theorem countP_confCompleteKey_streakStep (k : String) (st : MState) (ds : String) :
    ((streakStep st ds).2).countP (isConfCompleteKey k) = 0 :=
  countP_zero_of_shape _ _ (streakStep_shape st ds) (by intro b h; obtain ⟨n, rfl⟩ := h; rfl)

theorem countP_confCompleteKey_stateStep (k : String) (st : MState) (x : String) :
    ((stateStep st x).2).countP (isConfCompleteKey k) = 0 :=
  countP_zero_of_shape _ _ (stateStep_shape st x) (by intro b h; obtain ⟨y, n, rfl⟩ := h; rfl)

theorem countP_confCompleteKey_venueStep (k : String) (st : MState) (v dv : String) :
    ((venueStep st v dv).2).countP (isConfCompleteKey k) = 0 :=
  countP_zero_of_shape _ _ (venueStep_shape st v dv) (by intro b h; rcases h with ⟨y, n, rfl⟩ | ⟨y, n, rfl⟩ <;> rfl)

theorem countP_confCompleteKey_teamStep (k : String) (d : Data) (g : Game) (γ : String) (st : MState) (t : String) :
    ((teamStep d g γ st t).2).countP (isConfCompleteKey k) = 0 :=
  countP_zero_of_shape _ _ (teamStep_shape d g γ st t) (by intro b h; rcases h with ⟨x, y, rfl⟩ | ⟨x, n, rfl⟩ | ⟨x, y, n, rfl⟩ <;> rfl)

theorem countP_confCompleteKey_matchupStep (k : String) (st : MState) (aT hT γ : String) :
    ((matchupStep st aT hT γ).2).countP (isConfCompleteKey k) = 0 :=
  countP_zero_of_shape _ _ (matchupStep_shape st aT hT γ) (by intro b h; subst h; rfl)

theorem countP_confCompleteKey_confMatchupStep (k : String) (st : MState) (aC hC : String) :
    ((confMatchupStep st aC hC).2).countP (isConfCompleteKey k) = 0 :=
  countP_zero_of_shape _ _ (confMatchupStep_shape st aC hC) (by intro b h; subst h; rfl)

theorem countP_confCompleteKey_transferFold (k : String) (d : Data) (ds : String) (pgs : List PlayerGame) (st : MState) :
    ((transferFold d ds st pgs).2).countP (isConfCompleteKey k) = 0 :=
  countP_zero_of_shape _ _ (fun b hb => transferFold_badges_shape d ds pgs st b hb) (by intro b h; obtain ⟨x, y, z, rfl⟩ := h; rfl)

theorem filter_streakB_gameCountStep (st : MState) :
    ((gameCountStep st).2).filter isStreakB = [] :=
  filter_nil_of_shape _ _ (gameCountStep_shape st) (by intro b h; obtain ⟨n, rfl⟩ := h; rfl)

theorem filter_streakB_d1GameStep (st : MState) (dv : String) :
    ((d1GameStep st dv).2).filter isStreakB = [] :=
  filter_nil_of_shape _ _ (d1GameStep_shape st dv) (by intro b h; obtain ⟨n, rfl⟩ := h; rfl)

theorem filter_streakB_stateStep (st : MState) (x : String) :
    ((stateStep st x).2).filter isStreakB = [] :=
  filter_nil_of_shape _ _ (stateStep_shape st x) (by intro b h; obtain ⟨y, n, rfl⟩ := h; rfl)

theorem filter_streakB_venueStep (st : MState) (v dv : String) :
    ((venueStep st v dv).2).filter isStreakB = [] :=
  filter_nil_of_shape _ _ (venueStep_shape st v dv) (by intro b h; rcases h with ⟨y, n, rfl⟩ | ⟨y, n, rfl⟩ <;> rfl)

theorem filter_streakB_teamStep (d : Data) (g : Game) (γ : String) (st : MState) (t : String) :
    ((teamStep d g γ st t).2).filter isStreakB = [] :=
  filter_nil_of_shape _ _ (teamStep_shape d g γ st t) (by intro b h; rcases h with ⟨x, y, rfl⟩ | ⟨x, n, rfl⟩ | ⟨x, y, n, rfl⟩ <;> rfl)

theorem filter_streakB_confStep (d : Data) (γ : String) (st : MState) (c t : String) :
    ((confStep d γ st c t).2).filter isStreakB = [] :=
  filter_nil_of_shape _ _ (confStep_shape d γ st c t) (by intro b h; rcases h with ⟨rfl, -⟩ | ⟨rfl, -⟩ <;> rfl)

theorem filter_streakB_matchupStep (st : MState) (aT hT γ : String) :
    ((matchupStep st aT hT γ).2).filter isStreakB = [] :=
  filter_nil_of_shape _ _ (matchupStep_shape st aT hT γ) (by intro b h; subst h; rfl)

theorem filter_streakB_confMatchupStep (st : MState) (aC hC : String) :
    ((confMatchupStep st aC hC).2).filter isStreakB = [] :=
  filter_nil_of_shape _ _ (confMatchupStep_shape st aC hC) (by intro b h; subst h; rfl)

theorem filter_streakB_transferFold (d : Data) (ds : String) (pgs : List PlayerGame) (st : MState) :
    ((transferFold d ds st pgs).2).filter isStreakB = [] :=
  filter_nil_of_shape _ _ (fun b hb => transferFold_badges_shape d ds pgs st b hb) (by intro b h; obtain ⟨x, y, z, rfl⟩ := h; rfl)

theorem filter_venueB_gameCountStep (st : MState) :
    ((gameCountStep st).2).filter isVenueB = [] :=
  filter_nil_of_shape _ _ (gameCountStep_shape st) (by intro b h; obtain ⟨n, rfl⟩ := h; rfl)

theorem filter_venueB_d1GameStep (st : MState) (dv : String) :
    ((d1GameStep st dv).2).filter isVenueB = [] :=
  filter_nil_of_shape _ _ (d1GameStep_shape st dv) (by intro b h; obtain ⟨n, rfl⟩ := h; rfl)

theorem filter_venueB_streakStep (st : MState) (ds : String) :
    ((streakStep st ds).2).filter isVenueB = [] :=
  filter_nil_of_shape _ _ (streakStep_shape st ds) (by intro b h; obtain ⟨n, rfl⟩ := h; rfl)

theorem filter_venueB_stateStep (st : MState) (x : String) :
    ((stateStep st x).2).filter isVenueB = [] :=
  filter_nil_of_shape _ _ (stateStep_shape st x) (by intro b h; obtain ⟨y, n, rfl⟩ := h; rfl)

theorem filter_venueB_teamStep (d : Data) (g : Game) (γ : String) (st : MState) (t : String) :
    ((teamStep d g γ st t).2).filter isVenueB = [] :=
  filter_nil_of_shape _ _ (teamStep_shape d g γ st t) (by intro b h; rcases h with ⟨x, y, rfl⟩ | ⟨x, n, rfl⟩ | ⟨x, y, n, rfl⟩ <;> rfl)

theorem filter_venueB_confStep (d : Data) (γ : String) (st : MState) (c t : String) :
    ((confStep d γ st c t).2).filter isVenueB = [] :=
  filter_nil_of_shape _ _ (confStep_shape d γ st c t) (by intro b h; rcases h with ⟨rfl, -⟩ | ⟨rfl, -⟩ <;> rfl)

theorem filter_venueB_matchupStep (st : MState) (aT hT γ : String) :
    ((matchupStep st aT hT γ).2).filter isVenueB = [] :=
  filter_nil_of_shape _ _ (matchupStep_shape st aT hT γ) (by intro b h; subst h; rfl)

theorem filter_venueB_confMatchupStep (st : MState) (aC hC : String) :
    ((confMatchupStep st aC hC).2).filter isVenueB = [] :=
  filter_nil_of_shape _ _ (confMatchupStep_shape st aC hC) (by intro b h; subst h; rfl)

theorem filter_venueB_transferFold (d : Data) (ds : String) (pgs : List PlayerGame) (st : MState) :
    ((transferFold d ds st pgs).2).filter isVenueB = [] :=
  filter_nil_of_shape _ _ (fun b hb => transferFold_badges_shape d ds pgs st b hb) (by intro b h; obtain ⟨x, y, z, rfl⟩ := h; rfl)

/-! ## Emitting-step counting formulas -/

theorem countP_confCompleteZeroTotal_gameCountStep (st : MState) :
    ((gameCountStep st).2).countP isConfCompleteZeroTotal = 0 :=
  countP_zero_of_shape _ _ (gameCountStep_shape st) (by intro b h; obtain ⟨n, rfl⟩ := h; rfl)

theorem countP_confCompleteZeroTotal_d1GameStep (st : MState) (dv : String) :
    ((d1GameStep st dv).2).countP isConfCompleteZeroTotal = 0 :=
  countP_zero_of_shape _ _ (d1GameStep_shape st dv) (by intro b h; obtain ⟨n, rfl⟩ := h; rfl)

theorem countP_confCompleteZeroTotal_streakStep (st : MState) (ds : String) :
    ((streakStep st ds).2).countP isConfCompleteZeroTotal = 0 :=
  countP_zero_of_shape _ _ (streakStep_shape st ds) (by intro b h; obtain ⟨n, rfl⟩ := h; rfl)

theorem countP_confCompleteZeroTotal_stateStep (st : MState) (x : String) :
    ((stateStep st x).2).countP isConfCompleteZeroTotal = 0 :=
  countP_zero_of_shape _ _ (stateStep_shape st x) (by intro b h; obtain ⟨y, n, rfl⟩ := h; rfl)

theorem countP_confCompleteZeroTotal_venueStep (st : MState) (v dv : String) :
    ((venueStep st v dv).2).countP isConfCompleteZeroTotal = 0 :=
  countP_zero_of_shape _ _ (venueStep_shape st v dv) (by intro b h; rcases h with ⟨y, n, rfl⟩ | ⟨y, n, rfl⟩ <;> rfl)

theorem countP_confCompleteZeroTotal_teamStep (d : Data) (g : Game) (γ : String) (st : MState) (t : String) :
    ((teamStep d g γ st t).2).countP isConfCompleteZeroTotal = 0 :=
  countP_zero_of_shape _ _ (teamStep_shape d g γ st t) (by intro b h; rcases h with ⟨x, y, rfl⟩ | ⟨x, n, rfl⟩ | ⟨x, y, n, rfl⟩ <;> rfl)

theorem countP_confCompleteZeroTotal_matchupStep (st : MState) (aT hT γ : String) :
    ((matchupStep st aT hT γ).2).countP isConfCompleteZeroTotal = 0 :=
  countP_zero_of_shape _ _ (matchupStep_shape st aT hT γ) (by intro b h; subst h; rfl)

theorem countP_confCompleteZeroTotal_confMatchupStep (st : MState) (aC hC : String) :
    ((confMatchupStep st aC hC).2).countP isConfCompleteZeroTotal = 0 :=
  countP_zero_of_shape _ _ (confMatchupStep_shape st aC hC) (by intro b h; subst h; rfl)

theorem countP_confCompleteZeroTotal_transferFold (d : Data) (ds : String) (pgs : List PlayerGame) (st : MState) :
    ((transferFold d ds st pgs).2).countP isConfCompleteZeroTotal = 0 :=
  countP_zero_of_shape _ _ (fun b hb => transferFold_badges_shape d ds pgs st b hb) (by intro b h; obtain ⟨x, y, z, rfl⟩ := h; rfl)

theorem countP_confCompleteSentinel_gameCountStep (st : MState) :
    ((gameCountStep st).2).countP isConfCompleteSentinel = 0 :=
  countP_zero_of_shape _ _ (gameCountStep_shape st) (by intro b h; obtain ⟨n, rfl⟩ := h; rfl)

theorem countP_confCompleteSentinel_d1GameStep (st : MState) (dv : String) :
    ((d1GameStep st dv).2).countP isConfCompleteSentinel = 0 :=
  countP_zero_of_shape _ _ (d1GameStep_shape st dv) (by intro b h; obtain ⟨n, rfl⟩ := h; rfl)

theorem countP_confCompleteSentinel_streakStep (st : MState) (ds : String) :
    ((streakStep st ds).2).countP isConfCompleteSentinel = 0 :=
  countP_zero_of_shape _ _ (streakStep_shape st ds) (by intro b h; obtain ⟨n, rfl⟩ := h; rfl)

theorem countP_confCompleteSentinel_stateStep (st : MState) (x : String) :
    ((stateStep st x).2).countP isConfCompleteSentinel = 0 :=
  countP_zero_of_shape _ _ (stateStep_shape st x) (by intro b h; obtain ⟨y, n, rfl⟩ := h; rfl)

theorem countP_confCompleteSentinel_venueStep (st : MState) (v dv : String) :
    ((venueStep st v dv).2).countP isConfCompleteSentinel = 0 :=
  countP_zero_of_shape _ _ (venueStep_shape st v dv) (by intro b h; rcases h with ⟨y, n, rfl⟩ | ⟨y, n, rfl⟩ <;> rfl)

theorem countP_confCompleteSentinel_teamStep (d : Data) (g : Game) (γ : String) (st : MState) (t : String) :
    ((teamStep d g γ st t).2).countP isConfCompleteSentinel = 0 :=
  countP_zero_of_shape _ _ (teamStep_shape d g γ st t) (by intro b h; rcases h with ⟨x, y, rfl⟩ | ⟨x, n, rfl⟩ | ⟨x, y, n, rfl⟩ <;> rfl)

theorem countP_confCompleteSentinel_matchupStep (st : MState) (aT hT γ : String) :
    ((matchupStep st aT hT γ).2).countP isConfCompleteSentinel = 0 :=
  countP_zero_of_shape _ _ (matchupStep_shape st aT hT γ) (by intro b h; subst h; rfl)

theorem countP_confCompleteSentinel_confMatchupStep (st : MState) (aC hC : String) :
    ((confMatchupStep st aC hC).2).countP isConfCompleteSentinel = 0 :=
  countP_zero_of_shape _ _ (confMatchupStep_shape st aC hC) (by intro b h; subst h; rfl)

theorem countP_confCompleteSentinel_transferFold (d : Data) (ds : String) (pgs : List PlayerGame) (st : MState) :
    ((transferFold d ds st pgs).2).countP isConfCompleteSentinel = 0 :=
  countP_zero_of_shape _ _ (fun b hb => transferFold_badges_shape d ds pgs st b hb) (by intro b h; obtain ⟨x, y, z, rfl⟩ := h; rfl)

theorem countP_newState_stateStep (s : String) (st : MState) (x : String) :
    ((stateStep st x).2).countP (isNewStateFor s) =
      if x ≠ "" ∧ x ∉ st.statesSeen ∧ x = s then 1 else 0 := by
  rw [stateStep_snd]
  by_cases h2 : x = s
  · subst h2
    simp only [ne_eq, eq_self_iff_true, and_true]
    split <;> simp [isNewStateFor]
  · split <;> (rw [if_neg (fun hc => h2 hc.2.2)]; simp [isNewStateFor, h2])

theorem countP_newTeam_teamStep (k : String) (d : Data) (g : Game) (γ : String)
    (st : MState) (t : String) :
    ((teamStep d g γ st t).2).countP (isNewTeamKey k) =
      if t ≠ "" ∧ st.teamCounts (teamKeyOf t γ) = 0 ∧ teamKeyOf t γ = k then 1 else 0 := by
  rw [teamStep_snd]
  simp only [List.countP_append]
  by_cases h3 : teamKeyOf t γ = k
  · subst h3
    by_cases h1 : t = "" <;> by_cases h2 : st.teamCounts (teamKeyOf t γ) = 0 <;>
      (repeat' split) <;> simp_all [isNewTeamKey]
  · by_cases h1 : t = "" <;> by_cases h2 : st.teamCounts (teamKeyOf t γ) = 0 <;>
      (repeat' split) <;> simp_all [isNewTeamKey]

theorem countP_newConf_confStep (c0 : String) (d : Data) (γ : String) (st : MState)
    (c t : String) :
    ((confStep d γ st c t).2).countP (isNewConfFor c0) =
      if c ≠ "" ∧ c ≠ "Historical/Other" ∧ st.confTeamCounts c = 0 ∧ c = c0 then 1 else 0 := by
  rw [confStep_snd]
  simp only [List.countP_append]
  by_cases h4 : c = c0
  · subst h4
    by_cases h1 : c = "" <;> by_cases h2 : c = "Historical/Other" <;>
      by_cases h3 : st.confTeamCounts c = 0 <;>
      (repeat' split) <;> simp_all [isNewConfFor]
  · by_cases h1 : c = "" <;> by_cases h2 : c = "Historical/Other" <;>
      by_cases h3 : st.confTeamCounts c = 0 <;>
      (repeat' split) <;> simp_all [isNewConfFor]

theorem countP_newMatchup_matchupStep (k : String) (st : MState) (aT hT γ : String) :
    ((matchupStep st aT hT γ).2).countP (isNewMatchupKey k) =
      if aT ≠ "" ∧ hT ≠ "" ∧ st.matchupsSeen (matchupKeyOf aT hT γ) = false ∧ matchupKeyOf aT hT γ = k then 1 else 0 := by
  rw [matchupStep_snd]
  by_cases h2 : matchupKeyOf aT hT γ = k
  · subst h2
    simp only [ne_eq, eq_self_iff_true, and_true]
    split <;> simp [isNewMatchupKey]
  · split <;> (rw [if_neg (fun hc => h2 hc.2.2.2)]; simp [isNewMatchupKey, h2])

theorem countP_confCompleteKey_confStep (k : String) (d : Data) (γ : String)
    (st : MState) (c t : String) :
    ((confStep d γ st c t).2).countP (isConfCompleteKey k) =
      if c ≠ "" ∧ c ≠ "Historical/Other" ∧ 0 < conferenceTeamTotal d c ∧ conferenceTeamTotal d c ≤ (setAdd (st.confTeamsSeen (c ++ "|" ++ γ)) t).length ∧ st.confCompleted (c ++ "|" ++ γ) = false ∧ c ++ "|" ++ γ = k then 1 else 0 := by
  rw [confStep_snd]
  simp only [List.countP_append]
  by_cases h3 : c ++ "|" ++ γ = k
  · subst h3
    by_cases h1 : c = "" <;> by_cases h2 : c = "Historical/Other" <;>
      (repeat' split) <;> simp_all [isConfCompleteKey]
  · by_cases h1 : c = "" <;> by_cases h2 : c = "Historical/Other" <;>
      (repeat' split) <;> simp_all [isConfCompleteKey]

theorem countP_confCompleteZeroTotal_confStep (d : Data) (γ : String) (st : MState)
    (c t : String) :
    ((confStep d γ st c t).2).countP isConfCompleteZeroTotal = 0 := by
  rw [confStep_snd]
  simp only [List.countP_append]
  (repeat' split) <;> simp_all [isConfCompleteZeroTotal] <;> omega

theorem conferenceTeamTotal_sentinel_left (d : Data) :
    conferenceTeamTotal d "All D1" = 0 := by
  unfold conferenceTeamTotal
  simp

theorem conferenceTeamTotal_sentinel_right (d : Data) :
    conferenceTeamTotal d "Historical/Other" = 0 := by
  unfold conferenceTeamTotal
  simp

theorem countP_confCompleteSentinel_confStep (d : Data) (γ : String) (st : MState)
    (c t : String) :
    ((confStep d γ st c t).2).countP isConfCompleteSentinel = 0 := by
  rw [confStep_snd]
  simp only [List.countP_append]
  (repeat' split) <;>
    simp_all [isConfCompleteSentinel] <;>
    rintro rfl <;> simp_all [conferenceTeamTotal_sentinel_left]

theorem countP_newConfHO_confStep (d : Data) (γ : String) (st : MState) (c t : String) :
    ((confStep d γ st c t).2).countP (isNewConfFor "Historical/Other") = 0 := by
  rw [countP_newConf_confStep]
  split
  · rename_i hc
    exact absurd hc.2.2.2 hc.2.1
  · rfl

theorem filter_streakB_streakStep (st : MState) (ds : String) :
    ((streakStep st ds).2).filter isStreakB = (streakStep st ds).2 := by
  rw [streakStep_snd]
  split <;> rfl

theorem filter_venueB_venueStep (st : MState) (v dv : String) :
    ((venueStep st v dv).2).filter isVenueB = (venueStep st v dv).2 := by
  rw [venueStep_snd]
  simp only [List.filter_append]
  (repeat' split) <;> rfl

/-! ## Preservation of the one-per-key invariant -/

theorem C5Inv_gameCountStep (st : MState) (out : List BadgeK) (h : C5Inv st out) :
    C5Inv (gameCountStep st).1 (out ++ (gameCountStep st).2) := by
  obtain ⟨h1, h2, h3, h4, h5⟩ := h
  refine ⟨fun s => ?_, fun k => ?_, fun c => ?_, fun k => ?_, fun c γ hγ hz => ?_⟩
  · simp only [List.countP_append, countP_newState_gameCountStep, countP_newTeam_gameCountStep, countP_newConf_gameCountStep, countP_newMatchup_gameCountStep, gameCountStep_fst, Nat.add_zero]
    exact h1 s
  · simp only [List.countP_append, countP_newState_gameCountStep, countP_newTeam_gameCountStep, countP_newConf_gameCountStep, countP_newMatchup_gameCountStep, gameCountStep_fst, Nat.add_zero]
    exact h2 k
  · simp only [List.countP_append, countP_newState_gameCountStep, countP_newTeam_gameCountStep, countP_newConf_gameCountStep, countP_newMatchup_gameCountStep, gameCountStep_fst, Nat.add_zero]
    exact h3 c
  · simp only [List.countP_append, countP_newState_gameCountStep, countP_newTeam_gameCountStep, countP_newConf_gameCountStep, countP_newMatchup_gameCountStep, gameCountStep_fst, Nat.add_zero]
    exact h4 k
  · simp only [countP_newState_gameCountStep, countP_newTeam_gameCountStep, countP_newConf_gameCountStep, countP_newMatchup_gameCountStep, gameCountStep_fst] at hz ⊢
    exact h5 c γ hγ hz

theorem C5Inv_d1GameStep (st : MState) (dv : String) (out : List BadgeK) (h : C5Inv st out) :
    C5Inv (d1GameStep st dv).1 (out ++ (d1GameStep st dv).2) := by
  obtain ⟨h1, h2, h3, h4, h5⟩ := h
  refine ⟨fun s => ?_, fun k => ?_, fun c => ?_, fun k => ?_, fun c γ hγ hz => ?_⟩
  · simp only [List.countP_append, countP_newState_d1GameStep, countP_newTeam_d1GameStep, countP_newConf_d1GameStep, countP_newMatchup_d1GameStep, d1GameStep_fst, Nat.add_zero]
    exact h1 s
  · simp only [List.countP_append, countP_newState_d1GameStep, countP_newTeam_d1GameStep, countP_newConf_d1GameStep, countP_newMatchup_d1GameStep, d1GameStep_fst, Nat.add_zero]
    exact h2 k
  · simp only [List.countP_append, countP_newState_d1GameStep, countP_newTeam_d1GameStep, countP_newConf_d1GameStep, countP_newMatchup_d1GameStep, d1GameStep_fst, Nat.add_zero]
    exact h3 c
  · simp only [List.countP_append, countP_newState_d1GameStep, countP_newTeam_d1GameStep, countP_newConf_d1GameStep, countP_newMatchup_d1GameStep, d1GameStep_fst, Nat.add_zero]
    exact h4 k
  · simp only [countP_newState_d1GameStep, countP_newTeam_d1GameStep, countP_newConf_d1GameStep, countP_newMatchup_d1GameStep, d1GameStep_fst] at hz ⊢
    exact h5 c γ hγ hz

theorem C5Inv_streakStep (st : MState) (ds : String) (out : List BadgeK) (h : C5Inv st out) :
    C5Inv (streakStep st ds).1 (out ++ (streakStep st ds).2) := by
  obtain ⟨h1, h2, h3, h4, h5⟩ := h
  refine ⟨fun s => ?_, fun k => ?_, fun c => ?_, fun k => ?_, fun c γ hγ hz => ?_⟩
  · simp only [List.countP_append, countP_newState_streakStep, countP_newTeam_streakStep, countP_newConf_streakStep, countP_newMatchup_streakStep, streakStep_fst, streakUpdate_statesSeen, streakUpdate_teamCounts, streakUpdate_confTeamCounts, streakUpdate_matchupsSeen, streakUpdate_confTeamsSeen, Nat.add_zero]
    exact h1 s
  · simp only [List.countP_append, countP_newState_streakStep, countP_newTeam_streakStep, countP_newConf_streakStep, countP_newMatchup_streakStep, streakStep_fst, streakUpdate_statesSeen, streakUpdate_teamCounts, streakUpdate_confTeamCounts, streakUpdate_matchupsSeen, streakUpdate_confTeamsSeen, Nat.add_zero]
    exact h2 k
  · simp only [List.countP_append, countP_newState_streakStep, countP_newTeam_streakStep, countP_newConf_streakStep, countP_newMatchup_streakStep, streakStep_fst, streakUpdate_statesSeen, streakUpdate_teamCounts, streakUpdate_confTeamCounts, streakUpdate_matchupsSeen, streakUpdate_confTeamsSeen, Nat.add_zero]
    exact h3 c
  · simp only [List.countP_append, countP_newState_streakStep, countP_newTeam_streakStep, countP_newConf_streakStep, countP_newMatchup_streakStep, streakStep_fst, streakUpdate_statesSeen, streakUpdate_teamCounts, streakUpdate_confTeamCounts, streakUpdate_matchupsSeen, streakUpdate_confTeamsSeen, Nat.add_zero]
    exact h4 k
  · simp only [countP_newState_streakStep, countP_newTeam_streakStep, countP_newConf_streakStep, countP_newMatchup_streakStep, streakStep_fst, streakUpdate_statesSeen, streakUpdate_teamCounts, streakUpdate_confTeamCounts, streakUpdate_matchupsSeen, streakUpdate_confTeamsSeen] at hz ⊢
    exact h5 c γ hγ hz

theorem C5Inv_venueStep (st : MState) (v dv : String) (out : List BadgeK) (h : C5Inv st out) :
    C5Inv (venueStep st v dv).1 (out ++ (venueStep st v dv).2) := by
  obtain ⟨h1, h2, h3, h4, h5⟩ := h
  refine ⟨fun s => ?_, fun k => ?_, fun c => ?_, fun k => ?_, fun c γ hγ hz => ?_⟩
  · simp only [List.countP_append, countP_newState_venueStep, countP_newTeam_venueStep, countP_newConf_venueStep, countP_newMatchup_venueStep, venueStep_fst, Nat.add_zero]
    exact h1 s
  · simp only [List.countP_append, countP_newState_venueStep, countP_newTeam_venueStep, countP_newConf_venueStep, countP_newMatchup_venueStep, venueStep_fst, Nat.add_zero]
    exact h2 k
  · simp only [List.countP_append, countP_newState_venueStep, countP_newTeam_venueStep, countP_newConf_venueStep, countP_newMatchup_venueStep, venueStep_fst, Nat.add_zero]
    exact h3 c
  · simp only [List.countP_append, countP_newState_venueStep, countP_newTeam_venueStep, countP_newConf_venueStep, countP_newMatchup_venueStep, venueStep_fst, Nat.add_zero]
    exact h4 k
  · simp only [countP_newState_venueStep, countP_newTeam_venueStep, countP_newConf_venueStep, countP_newMatchup_venueStep, venueStep_fst] at hz ⊢
    exact h5 c γ hγ hz

theorem C5Inv_confMatchupStep (st : MState) (aC hC : String) (out : List BadgeK) (h : C5Inv st out) :
    C5Inv (confMatchupStep st aC hC).1 (out ++ (confMatchupStep st aC hC).2) := by
  obtain ⟨h1, h2, h3, h4, h5⟩ := h
  refine ⟨fun s => ?_, fun k => ?_, fun c => ?_, fun k => ?_, fun c γ hγ hz => ?_⟩
  · simp only [List.countP_append, countP_newState_confMatchupStep, countP_newTeam_confMatchupStep, countP_newConf_confMatchupStep, countP_newMatchup_confMatchupStep, confMatchupStep_fst, Nat.add_zero]
    exact h1 s
  · simp only [List.countP_append, countP_newState_confMatchupStep, countP_newTeam_confMatchupStep, countP_newConf_confMatchupStep, countP_newMatchup_confMatchupStep, confMatchupStep_fst, Nat.add_zero]
    exact h2 k
  · simp only [List.countP_append, countP_newState_confMatchupStep, countP_newTeam_confMatchupStep, countP_newConf_confMatchupStep, countP_newMatchup_confMatchupStep, confMatchupStep_fst, Nat.add_zero]
    exact h3 c
  · simp only [List.countP_append, countP_newState_confMatchupStep, countP_newTeam_confMatchupStep, countP_newConf_confMatchupStep, countP_newMatchup_confMatchupStep, confMatchupStep_fst, Nat.add_zero]
    exact h4 k
  · simp only [countP_newState_confMatchupStep, countP_newTeam_confMatchupStep, countP_newConf_confMatchupStep, countP_newMatchup_confMatchupStep, confMatchupStep_fst] at hz ⊢
    exact h5 c γ hγ hz

theorem C5Inv_transferFold (d : Data) (ds : String) (pgs : List PlayerGame) (st : MState) (out : List BadgeK) (h : C5Inv st out) :
    C5Inv (transferFold d ds st pgs).1 (out ++ (transferFold d ds st pgs).2) := by
  obtain ⟨h1, h2, h3, h4, h5⟩ := h
  refine ⟨fun s => ?_, fun k => ?_, fun c => ?_, fun k => ?_, fun c γ hγ hz => ?_⟩
  · simp only [List.countP_append, countP_newState_transferFold, countP_newTeam_transferFold, countP_newConf_transferFold, countP_newMatchup_transferFold, transferFold_statesSeen, transferFold_teamCounts, transferFold_confTeamCounts, transferFold_matchupsSeen, transferFold_confTeamsSeen, Nat.add_zero]
    exact h1 s
  · simp only [List.countP_append, countP_newState_transferFold, countP_newTeam_transferFold, countP_newConf_transferFold, countP_newMatchup_transferFold, transferFold_statesSeen, transferFold_teamCounts, transferFold_confTeamCounts, transferFold_matchupsSeen, transferFold_confTeamsSeen, Nat.add_zero]
    exact h2 k
  · simp only [List.countP_append, countP_newState_transferFold, countP_newTeam_transferFold, countP_newConf_transferFold, countP_newMatchup_transferFold, transferFold_statesSeen, transferFold_teamCounts, transferFold_confTeamCounts, transferFold_matchupsSeen, transferFold_confTeamsSeen, Nat.add_zero]
    exact h3 c
  · simp only [List.countP_append, countP_newState_transferFold, countP_newTeam_transferFold, countP_newConf_transferFold, countP_newMatchup_transferFold, transferFold_statesSeen, transferFold_teamCounts, transferFold_confTeamCounts, transferFold_matchupsSeen, transferFold_confTeamsSeen, Nat.add_zero]
    exact h4 k
  · simp only [countP_newState_transferFold, countP_newTeam_transferFold, countP_newConf_transferFold, countP_newMatchup_transferFold, transferFold_statesSeen, transferFold_teamCounts, transferFold_confTeamCounts, transferFold_matchupsSeen, transferFold_confTeamsSeen] at hz ⊢
    exact h5 c γ hγ hz

theorem C5Inv_confVenueStep (st : MState) (v hc : String) (out : List BadgeK)
    (h : C5Inv st out) : C5Inv (confVenueStep st v hc) out := by
  obtain ⟨h1, h2, h3, h4, h5⟩ := h
  refine ⟨fun s => ?_, fun k => ?_, fun c => ?_, fun k => ?_, fun c γ hγ hz => ?_⟩
  · simp only [confVenueStep_eq]
    exact h1 s
  · simp only [confVenueStep_eq]
    exact h2 k
  · simp only [confVenueStep_eq]
    exact h3 c
  · simp only [confVenueStep_eq]
    exact h4 k
  · simp only [confVenueStep_eq] at hz ⊢
    exact h5 c γ hγ hz

/-- `conf|gender` key strings with single-letter genders are injective
in the pair. -/
theorem pipe_gender_key_inj {a b γ1 γ2 : String} (h1 : γ1 = "M" ∨ γ1 = "W")
    (h2 : γ2 = "M" ∨ γ2 = "W") (h : a ++ "|" ++ γ1 = b ++ "|" ++ γ2) :
    a = b ∧ γ1 = γ2 := by
  have hd := congrArg String.data h
  simp only [String.data_append] at hd
  rcases h1 with rfl | rfl <;> rcases h2 with rfl | rfl
  · have h3 := List.append_inj_left' hd rfl
    have h4 := List.append_inj_left' h3 rfl
    exact ⟨String.ext h4, rfl⟩
  · exact absurd (List.append_inj_right' hd rfl) (by decide)
  · exact absurd (List.append_inj_right' hd rfl) (by decide)
  · have h3 := List.append_inj_left' hd rfl
    have h4 := List.append_inj_left' h3 rfl
    exact ⟨String.ext h4, rfl⟩

theorem C5Inv_stateStep (st : MState) (x : String) (out : List BadgeK)
    (h : C5Inv st out) : C5Inv (stateStep st x).1 (out ++ (stateStep st x).2) := by
  obtain ⟨h1, h2, h3, h4, h5⟩ := h
  refine ⟨fun s => ?_, fun k => ?_, fun c => ?_, fun k => ?_, fun c γ hγ hz => ?_⟩
  · rw [List.countP_append, countP_newState_stateStep, h1 s, stateStep_fst]
    by_cases hxs : x = s
    · subst hxs
      by_cases hc1 : x = "" <;> by_cases hc2 : x ∈ st.statesSeen <;>
        simp [hc1, hc2, List.mem_append]
    · have hsx : ¬(s = x) := fun hh => hxs hh.symm
      by_cases hc1 : x = "" <;> by_cases hc2 : x ∈ st.statesSeen <;>
        simp [hc1, hc2, hxs, hsx, List.mem_append]
  · simp only [List.countP_append, countP_newTeam_stateStep, stateStep_fst, Nat.add_zero]
    exact h2 k
  · simp only [List.countP_append, countP_newConf_stateStep, stateStep_fst, Nat.add_zero]
    exact h3 c
  · simp only [List.countP_append, countP_newMatchup_stateStep, stateStep_fst, Nat.add_zero]
    exact h4 k
  · simp only [stateStep_fst] at hz ⊢
    exact h5 c γ hγ hz

theorem C5Inv_matchupStep (st : MState) (aT hT γ0 : String) (out : List BadgeK)
    (h : C5Inv st out) :
    C5Inv (matchupStep st aT hT γ0).1 (out ++ (matchupStep st aT hT γ0).2) := by
  obtain ⟨h1, h2, h3, h4, h5⟩ := h
  refine ⟨fun s => ?_, fun k => ?_, fun c => ?_, fun k => ?_, fun c γ hγ hz => ?_⟩
  · simp only [List.countP_append, countP_newState_matchupStep, matchupStep_fst, Nat.add_zero]
    exact h1 s
  · simp only [List.countP_append, countP_newTeam_matchupStep, matchupStep_fst, Nat.add_zero]
    exact h2 k
  · simp only [List.countP_append, countP_newConf_matchupStep, matchupStep_fst, Nat.add_zero]
    exact h3 c
  · rw [List.countP_append, countP_newMatchup_matchupStep, h4 k, matchupStep_fst]
    by_cases hkk : matchupKeyOf aT hT γ0 = k
    · subst hkk
      by_cases hc1 : aT = "" <;> by_cases hc2 : hT = "" <;>
        by_cases hc3 : st.matchupsSeen (matchupKeyOf aT hT γ0) = false <;>
        simp_all [upd]
    · have hkk2 : ¬(k = matchupKeyOf aT hT γ0) := fun hh => hkk hh.symm
      by_cases hc1 : aT = "" <;> by_cases hc2 : hT = "" <;>
        by_cases hc3 : st.matchupsSeen (matchupKeyOf aT hT γ0) = false <;>
        simp_all [upd]
  · simp only [matchupStep_fst] at hz ⊢
    exact h5 c γ hγ hz

theorem C5Inv_teamStep (d : Data) (g : Game) (γ0 : String) (st : MState) (t : String)
    (out : List BadgeK) (h : C5Inv st out) :
    C5Inv (teamStep d g γ0 st t).1 (out ++ (teamStep d g γ0 st t).2) := by
  obtain ⟨h1, h2, h3, h4, h5⟩ := h
  refine ⟨fun s => ?_, fun k => ?_, fun c => ?_, fun k => ?_, fun c γ hγ hz => ?_⟩
  · simp only [List.countP_append, countP_newState_teamStep, teamStep_fst, Nat.add_zero]
    exact h1 s
  · rw [List.countP_append, countP_newTeam_teamStep, h2 k, teamStep_fst]
    by_cases hkk : teamKeyOf t γ0 = k
    · subst hkk
      by_cases ht : t = "" <;> by_cases hz0 : st.teamCounts (teamKeyOf t γ0) = 0 <;>
        simp_all [upd]
    · have hkk2 : ¬(k = teamKeyOf t γ0) := fun hh => hkk hh.symm
      by_cases ht : t = "" <;> by_cases hz0 : st.teamCounts (teamKeyOf t γ0) = 0 <;>
        simp_all [upd]
  · simp only [List.countP_append, countP_newConf_teamStep, teamStep_fst, Nat.add_zero]
    exact h3 c
  · simp only [List.countP_append, countP_newMatchup_teamStep, teamStep_fst, Nat.add_zero]
    exact h4 k
  · simp only [teamStep_fst] at hz ⊢
    exact h5 c γ hγ hz

theorem C5Inv_confStep (d : Data) (γ0 : String) (st : MState) (c0 t : String)
    (out : List BadgeK) (hγ0 : γ0 = "M" ∨ γ0 = "W") (h : C5Inv st out) :
    C5Inv (confStep d γ0 st c0 t).1 (out ++ (confStep d γ0 st c0 t).2) := by
  obtain ⟨h1, h2, h3, h4, h5⟩ := h
  refine ⟨fun s => ?_, fun k => ?_, fun c => ?_, fun k => ?_, fun c γ hγ hz => ?_⟩
  · simp only [List.countP_append, countP_newState_confStep, confStep_fst, Nat.add_zero]
    exact h1 s
  · simp only [List.countP_append, countP_newTeam_confStep, confStep_fst, Nat.add_zero]
    exact h2 k
  · rw [List.countP_append, countP_newConf_confStep, h3 c, confStep_fst]
    by_cases hcc : c0 = c
    · subst hcc
      by_cases hz0 : st.confTeamCounts c0 = 0
      · have hwn : t ∉ st.confTeamsSeen (c0 ++ "|" ++ γ0) := by
          rw [h5 c0 γ0 hγ0 hz0]
          simp
        by_cases hA : c0 = "" <;> by_cases hB : c0 = "Historical/Other" <;>
          simp_all [upd]
      · by_cases hA : c0 = "" <;> by_cases hB : c0 = "Historical/Other" <;>
          by_cases hW : t ∈ st.confTeamsSeen (c0 ++ "|" ++ γ0) <;>
          simp_all [upd]
    · have hcc2 : ¬(c = c0) := fun hh => hcc hh.symm
      by_cases hA : c0 = "" <;> by_cases hB : c0 = "Historical/Other" <;>
        by_cases hW : t ∈ st.confTeamsSeen (c0 ++ "|" ++ γ0) <;>
        simp_all [upd]
  · simp only [List.countP_append, countP_newMatchup_confStep, confStep_fst, Nat.add_zero]
    exact h4 k
  · simp only [confStep_fst] at hz ⊢
    have hzc : st.confTeamCounts c = 0 := by
      by_cases hcond : c0 ≠ "" ∧ c0 ≠ "Historical/Other" ∧ t ∉ st.confTeamsSeen (c0 ++ "|" ++ γ0)
      · rw [if_pos hcond] at hz
        by_cases hcc : c = c0
        · subst hcc
          simp only [upd] at hz
          simp at hz
        · simp only [upd] at hz
          simpa [hcc] using hz
      · rwa [if_neg hcond] at hz
    have hb := h5 c γ hγ hzc
    by_cases hcond2 : c0 ≠ "" ∧ c0 ≠ "Historical/Other"
    · rw [if_pos hcond2]
      by_cases hkey : c ++ "|" ++ γ = c0 ++ "|" ++ γ0
      · obtain ⟨hcc, hgg⟩ := pipe_gender_key_inj hγ hγ0 hkey
        subst hcc
        subst hgg
        have hwn : t ∉ st.confTeamsSeen (c ++ "|" ++ γ) := by
          rw [hb]
          simp
        have hcond3 : c ≠ "" ∧ c ≠ "Historical/Other" ∧ t ∉ st.confTeamsSeen (c ++ "|" ++ γ) :=
          ⟨hcond2.1, hcond2.2, hwn⟩
        rw [if_pos hcond3] at hz
        simp only [upd] at hz
        simp at hz
      · simp only [upd]
        simp [hkey, hb]
    · rw [if_neg hcond2]
      exact hb

/-! ## Preservation of the completion-at-most-once invariant -/

theorem CCInv_gameCountStep (st : MState) (out : List BadgeK) (h : ConfCompleteInv st out) :
    ConfCompleteInv (gameCountStep st).1 (out ++ (gameCountStep st).2) := by
  intro k
  simp only [List.countP_append, countP_confCompleteKey_gameCountStep, gameCountStep_fst, Nat.add_zero]
  exact h k

theorem CCInv_d1GameStep (st : MState) (dv : String) (out : List BadgeK) (h : ConfCompleteInv st out) :
    ConfCompleteInv (d1GameStep st dv).1 (out ++ (d1GameStep st dv).2) := by
  intro k
  simp only [List.countP_append, countP_confCompleteKey_d1GameStep, d1GameStep_fst, Nat.add_zero]
  exact h k

theorem CCInv_streakStep (st : MState) (ds : String) (out : List BadgeK) (h : ConfCompleteInv st out) :
    ConfCompleteInv (streakStep st ds).1 (out ++ (streakStep st ds).2) := by
  intro k
  simp only [List.countP_append, countP_confCompleteKey_streakStep, streakStep_fst, streakUpdate_confCompleted, Nat.add_zero]
  exact h k

theorem CCInv_stateStep (st : MState) (x : String) (out : List BadgeK) (h : ConfCompleteInv st out) :
    ConfCompleteInv (stateStep st x).1 (out ++ (stateStep st x).2) := by
  intro k
  simp only [List.countP_append, countP_confCompleteKey_stateStep, stateStep_fst, Nat.add_zero]
  exact h k

theorem CCInv_venueStep (st : MState) (v dv : String) (out : List BadgeK) (h : ConfCompleteInv st out) :
    ConfCompleteInv (venueStep st v dv).1 (out ++ (venueStep st v dv).2) := by
  intro k
  simp only [List.countP_append, countP_confCompleteKey_venueStep, venueStep_fst, Nat.add_zero]
  exact h k

theorem CCInv_teamStep (d : Data) (g : Game) (γ0 : String) (st : MState) (t : String) (out : List BadgeK) (h : ConfCompleteInv st out) :
    ConfCompleteInv (teamStep d g γ0 st t).1 (out ++ (teamStep d g γ0 st t).2) := by
  intro k
  simp only [List.countP_append, countP_confCompleteKey_teamStep, teamStep_fst, Nat.add_zero]
  exact h k

theorem CCInv_matchupStep (st : MState) (aT hT γ0 : String) (out : List BadgeK) (h : ConfCompleteInv st out) :
    ConfCompleteInv (matchupStep st aT hT γ0).1 (out ++ (matchupStep st aT hT γ0).2) := by
  intro k
  simp only [List.countP_append, countP_confCompleteKey_matchupStep, matchupStep_fst, Nat.add_zero]
  exact h k

theorem CCInv_confMatchupStep (st : MState) (aC hC : String) (out : List BadgeK) (h : ConfCompleteInv st out) :
    ConfCompleteInv (confMatchupStep st aC hC).1 (out ++ (confMatchupStep st aC hC).2) := by
  intro k
  simp only [List.countP_append, countP_confCompleteKey_confMatchupStep, confMatchupStep_fst, Nat.add_zero]
  exact h k

theorem CCInv_transferFold (d : Data) (ds : String) (pgs : List PlayerGame) (st : MState) (out : List BadgeK) (h : ConfCompleteInv st out) :
    ConfCompleteInv (transferFold d ds st pgs).1 (out ++ (transferFold d ds st pgs).2) := by
  intro k
  simp only [List.countP_append, countP_confCompleteKey_transferFold, transferFold_confCompleted, Nat.add_zero]
  exact h k

theorem CCInv_confVenueStep (st : MState) (v hc : String) (out : List BadgeK)
    (h : ConfCompleteInv st out) : ConfCompleteInv (confVenueStep st v hc) out := by
  intro k
  simp only [confVenueStep_eq]
  exact h k

theorem CCInv_confStep (d : Data) (γ0 : String) (st : MState) (c0 t : String)
    (out : List BadgeK) (h : ConfCompleteInv st out) :
    ConfCompleteInv (confStep d γ0 st c0 t).1 (out ++ (confStep d γ0 st c0 t).2) := by
  intro k
  rw [List.countP_append, countP_confCompleteKey_confStep, h k, confStep_fst]
  by_cases hkk : c0 ++ "|" ++ γ0 = k
  · subst hkk
    by_cases hA : c0 = "" <;> by_cases hB : c0 = "Historical/Other" <;>
      by_cases h3 : 0 < conferenceTeamTotal d c0 <;>
      by_cases h4 : conferenceTeamTotal d c0 ≤ (setAdd (st.confTeamsSeen (c0 ++ "|" ++ γ0)) t).length <;>
      by_cases h5 : st.confCompleted (c0 ++ "|" ++ γ0) = false <;>
      simp_all [upd, -Nat.not_le, -not_le]
  · have hkk2 : ¬(k = c0 ++ "|" ++ γ0) := fun hh => hkk hh.symm
    by_cases hA : c0 = "" <;> by_cases hB : c0 = "Historical/Other" <;>
      by_cases h3 : 0 < conferenceTeamTotal d c0 <;>
      by_cases h4 : conferenceTeamTotal d c0 ≤ (setAdd (st.confTeamsSeen (c0 ++ "|" ++ γ0)) t).length <;>
      by_cases h5 : st.confCompleted (c0 ++ "|" ++ γ0) = false <;>
      simp_all [upd, -Nat.not_le, -not_le]

/-! ## Composition through `processGame` and `processAll` -/

theorem effGender_wf (g : Game) (h : wfGender g) :
    effGender g = "M" ∨ effGender g = "W" := by
  unfold wfGender at h
  unfold effGender
  rcases h with h | h | h <;> simp [h]

theorem processGame_C5Inv (d : Data) (st : MState) (i : Nat) (g : Game)
    (out : List BadgeK) (hwf : wfGender g) (h : C5Inv st out) :
    C5Inv (processGame d st i g).1 (out ++ (processGame d st i g).2) := by
  have hγ := effGender_wf g hwf
  simp only [processGame, ← List.append_assoc]
  exact C5Inv_transferFold _ _ _ _ _
    (C5Inv_confVenueStep _ _ _ _
      (C5Inv_confMatchupStep _ _ _ _
        (C5Inv_matchupStep _ _ _ _ _
          (C5Inv_confStep _ _ _ _ _ _ hγ
            (C5Inv_confStep _ _ _ _ _ _ hγ
              (C5Inv_teamStep _ _ _ _ _ _
                (C5Inv_teamStep _ _ _ _ _ _
                  (C5Inv_venueStep _ _ _ _
                    (C5Inv_stateStep _ _ _
                      (C5Inv_streakStep _ _ _
                        (C5Inv_d1GameStep _ _ _
                          (C5Inv_gameCountStep _ _ h))))))))))))

theorem processGame_CCInv (d : Data) (st : MState) (i : Nat) (g : Game)
    (out : List BadgeK) (h : ConfCompleteInv st out) :
    ConfCompleteInv (processGame d st i g).1 (out ++ (processGame d st i g).2) := by
  simp only [processGame, ← List.append_assoc]
  exact CCInv_transferFold _ _ _ _ _
    (CCInv_confVenueStep _ _ _ _
      (CCInv_confMatchupStep _ _ _ _
        (CCInv_matchupStep _ _ _ _ _
          (CCInv_confStep _ _ _ _ _ _
            (CCInv_confStep _ _ _ _ _ _
              (CCInv_teamStep _ _ _ _ _ _
                (CCInv_teamStep _ _ _ _ _ _
                  (CCInv_venueStep _ _ _ _
                    (CCInv_stateStep _ _ _
                      (CCInv_streakStep _ _ _
                        (CCInv_d1GameStep _ _ _
                          (CCInv_gameCountStep _ _ h))))))))))))

theorem processAll_C5Inv (d : Data) (gs : List Game) :
    ∀ (st : MState) (i : Nat) (out : List BadgeK), (∀ g ∈ gs, wfGender g) →
      C5Inv st out →
      C5Inv (processAll d st i gs).1
        (out ++ (((processAll d st i gs).2).map GameOut.badges).flatten) := by
  induction gs with
  | nil =>
    intro st i out _ h
    simpa [processAll] using h
  | cons g gs ih =>
    intro st i out hwf h
    have h1 := processGame_C5Inv d st i g out (hwf g (List.mem_cons_self g gs)) h
    have h2 := ih (processGame d st i g).1 (i + 1) (out ++ (processGame d st i g).2)
      (fun g2 hg2 => hwf g2 (List.mem_cons_of_mem _ hg2)) h1
    simp only [processAll, List.map_cons, List.flatten_cons, ← List.append_assoc]
    exact h2

theorem processAll_CCInv (d : Data) (gs : List Game) :
    ∀ (st : MState) (i : Nat) (out : List BadgeK), ConfCompleteInv st out →
      ConfCompleteInv (processAll d st i gs).1
        (out ++ (((processAll d st i gs).2).map GameOut.badges).flatten) := by
  induction gs with
  | nil =>
    intro st i out h
    simpa [processAll] using h
  | cons g gs ih =>
    intro st i out h
    have h1 := processGame_CCInv d st i g out h
    have h2 := ih (processGame d st i g).1 (i + 1) (out ++ (processGame d st i g).2) h1
    simp only [processAll, List.map_cons, List.flatten_cons, ← List.append_assoc]
    exact h2

theorem C5Inv_init : C5Inv initState [] := by
  refine ⟨fun s => ?_, fun k => ?_, fun c => ?_, fun k => ?_, fun c γ hγ hz => ?_⟩ <;>
    simp [initState]

theorem CCInv_init : ConfCompleteInv initState [] := by
  intro k
  simp [initState]

theorem allBadges_eq (d : Data) :
    allBadges d = (((processAll d initState 0 (sortGames d.games)).2).map GameOut.badges).flatten := rfl

theorem processAll_countP_zero (d : Data) (p : BadgeK → Bool)
    (hz : ∀ st i g, ((processGame d st i g).2).countP p = 0) :
    ∀ (gs : List Game) (st : MState) (i : Nat),
      ((((processAll d st i gs).2).map GameOut.badges).flatten).countP p = 0 := by
  intro gs
  induction gs with
  | nil =>
    intro st i
    simp [processAll]
  | cons g gs ih =>
    intro st i
    simp [processAll, List.countP_append, hz, ih]

theorem processGame_countP_confCompleteZeroTotal (d : Data) (st : MState) (i : Nat) (g : Game) :
    ((processGame d st i g).2).countP isConfCompleteZeroTotal = 0 := by
  simp only [processGame, List.countP_append, countP_confCompleteZeroTotal_gameCountStep,
    countP_confCompleteZeroTotal_d1GameStep, countP_confCompleteZeroTotal_streakStep,
    countP_confCompleteZeroTotal_stateStep, countP_confCompleteZeroTotal_venueStep,
    countP_confCompleteZeroTotal_teamStep, countP_confCompleteZeroTotal_confStep,
    countP_confCompleteZeroTotal_matchupStep, countP_confCompleteZeroTotal_confMatchupStep,
    countP_confCompleteZeroTotal_transferFold, Nat.add_zero]

theorem processGame_countP_confCompleteSentinel (d : Data) (st : MState) (i : Nat) (g : Game) :
    ((processGame d st i g).2).countP isConfCompleteSentinel = 0 := by
  simp only [processGame, List.countP_append, countP_confCompleteSentinel_gameCountStep,
    countP_confCompleteSentinel_d1GameStep, countP_confCompleteSentinel_streakStep,
    countP_confCompleteSentinel_stateStep, countP_confCompleteSentinel_venueStep,
    countP_confCompleteSentinel_teamStep, countP_confCompleteSentinel_confStep,
    countP_confCompleteSentinel_matchupStep, countP_confCompleteSentinel_confMatchupStep,
    countP_confCompleteSentinel_transferFold, Nat.add_zero]

theorem processGame_countP_newConfHO (d : Data) (st : MState) (i : Nat) (g : Game) :
    ((processGame d st i g).2).countP (isNewConfFor "Historical/Other") = 0 := by
  simp only [processGame, List.countP_append, countP_newConf_gameCountStep,
    countP_newConf_d1GameStep, countP_newConf_streakStep, countP_newConf_stateStep,
    countP_newConf_venueStep, countP_newConf_teamStep, countP_newConfHO_confStep,
    countP_newConf_matchupStep, countP_newConf_confMatchupStep, countP_newConf_transferFold,
    Nat.add_zero]

/-! ## `processGame`-level badge characterizations -/

theorem processGame_filter_streakB (d : Data) (st : MState) (i : Nat) (g : Game) :
    ((processGame d st i g).2).filter isStreakB =
      if 2 ≤ (streakUpdate st g.DateSort).currentStreak then
        [BadgeK.streak (streakUpdate st g.DateSort).currentStreak] else [] := by
  simp only [processGame, List.filter_append, filter_streakB_gameCountStep,
    filter_streakB_d1GameStep, filter_streakB_stateStep, filter_streakB_venueStep,
    filter_streakB_teamStep, filter_streakB_confStep, filter_streakB_matchupStep,
    filter_streakB_confMatchupStep, filter_streakB_transferFold, filter_streakB_streakStep,
    streakStep_snd, gameCountStep_fst, d1GameStep_fst, streakUpdate_counts_comm,
    List.append_nil, List.nil_append]
  split <;> rfl

theorem processGame_filter_venueB (d : Data) (st : MState) (i : Nat) (g : Game) :
    ((processGame d st i g).2).filter isVenueB =
      (if g.Venue ≠ "" ∧ st.venueCounts g.Venue = 0 ∧ st.venueOrder.length + 1 ∈ MILESTONE_COUNTS then [BadgeK.venueCount g.Venue (st.venueOrder.length + 1)] else []) ++
      (if g.Venue ≠ "" ∧ 1 < st.venueCounts g.Venue + 1 ∧ st.venueCounts g.Venue + 1 ∈ MILESTONE_COUNTS then [BadgeK.venueVisit g.Venue (st.venueCounts g.Venue + 1)] else []) := by
  simp only [processGame, List.filter_append, filter_venueB_gameCountStep,
    filter_venueB_d1GameStep, filter_venueB_streakStep, filter_venueB_stateStep,
    filter_venueB_teamStep, filter_venueB_confStep, filter_venueB_matchupStep,
    filter_venueB_confMatchupStep, filter_venueB_transferFold, filter_venueB_venueStep,
    venueStep_snd, gameCountStep_fst, d1GameStep_fst, streakStep_fst,
    streakUpdate_counts_comm, stateStep_fst, streakUpdate_venueCounts,
    streakUpdate_venueOrder, List.append_nil, List.nil_append]
  (repeat' split) <;> rfl

/-! ## `streakUpdate` case analysis -/

theorem parseDateSort_ne_empty {s : String} {n : Nat} (h : parseDateSort s = some n) :
    s ≠ "" := by
  intro he
  rw [he] at h
  have hnone : parseDateSort "" = none := rfl
  rw [hnone] at h
  cases h

theorem streakUpdate_fresh (st : MState) (ds : String)
    (hlast : st.lastGameDate.getD "" = "") (hds : ds ≠ "") :
    streakUpdate st ds = { st with currentStreak := 1, lastGameDate := some ds } := by
  unfold streakUpdate
  simp [hlast, hds]

theorem streakUpdate_empty (st : MState) :
    streakUpdate st "" = { st with currentStreak := 1 } := by
  unfold streakUpdate
  simp

theorem streakUpdate_same (st : MState) (ds : String)
    (hlast : st.lastGameDate.getD "" ≠ "") (hds : ds ≠ "")
    (hdiff : dateDiffDays (st.lastGameDate.getD "") ds = some 0) :
    streakUpdate st ds = { st with lastGameDate := some ds } := by
  unfold streakUpdate
  simp [hlast, hds, hdiff]

theorem streakUpdate_next (st : MState) (ds : String)
    (hlast : st.lastGameDate.getD "" ≠ "") (hds : ds ≠ "")
    (hdiff : dateDiffDays (st.lastGameDate.getD "") ds = some 1) :
    streakUpdate st ds = { st with currentStreak := st.currentStreak + 1, lastGameDate := some ds } := by
  unfold streakUpdate
  simp [hlast, hds, hdiff]

theorem streakUpdate_gap (st : MState) (ds : String) (k : Int)
    (hlast : st.lastGameDate.getD "" ≠ "") (hds : ds ≠ "")
    (hdiff : dateDiffDays (st.lastGameDate.getD "") ds = some k)
    (h0 : k ≠ 0) (h1 : k ≠ 1) :
    streakUpdate st ds = { st with streakHistory := st.streakHistory ++ (if 2 ≤ st.currentStreak then [st.currentStreak] else []), maxStreak := max st.maxStreak st.currentStreak, currentStreak := 1, lastGameDate := some ds } := by
  unfold streakUpdate
  rw [if_pos (show st.lastGameDate.getD "" ≠ "" ∧ ds ≠ "" from ⟨hlast, hds⟩), hdiff]
  have : (match some k with
    | some 0 => st
    | some 1 => { st with currentStreak := st.currentStreak + 1 }
    | _ => { st with streakHistory := st.streakHistory ++ (if 2 ≤ st.currentStreak then [st.currentStreak] else []), maxStreak := max st.maxStreak st.currentStreak, currentStreak := 1 } : MState) = { st with streakHistory := st.streakHistory ++ (if 2 ≤ st.currentStreak then [st.currentStreak] else []), maxStreak := max st.maxStreak st.currentStreak, currentStreak := 1 } := by
    match k, h0, h1 with
    | Int.ofNat 0, h0, _ => exact absurd rfl h0
    | Int.ofNat 1, _, h1 => exact absurd rfl h1
    | Int.ofNat (n + 2), _, _ => rfl
    | Int.negSucc n, _, _ => rfl
  rw [this]
  simp [hds]

theorem streakUpdate_nan (st : MState) (ds : String)
    (hlast : st.lastGameDate.getD "" ≠ "") (hds : ds ≠ "")
    (hdiff : dateDiffDays (st.lastGameDate.getD "") ds = none) :
    streakUpdate st ds = { st with streakHistory := st.streakHistory ++ (if 2 ≤ st.currentStreak then [st.currentStreak] else []), maxStreak := max st.maxStreak st.currentStreak, currentStreak := 1, lastGameDate := some ds } := by
  unfold streakUpdate
  rw [if_pos (show st.lastGameDate.getD "" ≠ "" ∧ ds ≠ "" from ⟨hlast, hds⟩), hdiff]
  simp [hds]


/-! ## Set and seeding helpers -/

theorem mem_setAdd (l : List String) (x s : String) :
    s ∈ setAdd l x ↔ s ∈ l ∨ s = x := by
  unfold setAdd
  split
  · rename_i hx
    constructor
    · exact fun h => Or.inl h
    · rintro (h | rfl)
      · exact h
      · exact hx
  · simp

theorem mem_seed_foldl (d : Data) (pid pname ds : String) (prev : List String) :
    ∀ (acc : List String) (s : String),
      s ∈ prev.foldl (fun acc prevSchool =>
          if hasPlayerAtSchoolBefore d pid pname ds prevSchool then setAdd acc prevSchool
          else acc) acc ↔
        s ∈ acc ∨ (s ∈ prev ∧ hasPlayerAtSchoolBefore d pid pname ds s = true) := by
  induction prev with
  | nil =>
    intro acc s
    simp
  | cons q qs ih =>
    intro acc s
    rw [List.foldl_cons, ih]
    by_cases hq : hasPlayerAtSchoolBefore d pid pname ds q = true
    · rw [if_pos hq, mem_setAdd]
      constructor
      · rintro ((h | rfl) | ⟨hm, hp⟩)
        · exact Or.inl h
        · exact Or.inr ⟨List.mem_cons_self _ _, hq⟩
        · exact Or.inr ⟨List.mem_cons_of_mem _ hm, hp⟩
      · rintro (h | ⟨hm, hp⟩)
        · exact Or.inl (Or.inl h)
        · rcases List.mem_cons.1 hm with rfl | hm2
          · exact Or.inl (Or.inr rfl)
          · exact Or.inr ⟨hm2, hp⟩
    · rw [if_neg hq]
      constructor
      · rintro (h | ⟨hm, hp⟩)
        · exact Or.inl h
        · exact Or.inr ⟨List.mem_cons_of_mem _ hm, hp⟩
      · rintro (h | ⟨hm, hp⟩)
        · exact Or.inl h
        · rcases List.mem_cons.1 hm with rfl | hm2
          · exact absurd hp hq
          · exact Or.inr ⟨hm2, hp⟩

theorem mem_seedSchools (d : Data) (pid pname ds : String) (prev : List String) (s : String) :
    s ∈ seedSchools d pid pname ds prev ↔
      s ∈ prev ∧ hasPlayerAtSchoolBefore d pid pname ds s = true := by
  unfold seedSchools
  split
  · rw [mem_seed_foldl]
    simp
  · rename_i hprev
    have h0 : prev = [] := not_not.1 hprev
    subst h0
    simp

theorem hasPlayerAtSchoolBefore_id (d : Data) (pid pname ds s : String) (hpid : pid ≠ "") :
    hasPlayerAtSchoolBefore d pid pname ds s = true ↔
      ∃ pg2 ∈ d.playerGames, pg2.player_id = pid ∧ pg2.team = s ∧
        strCmp pg2.date_yyyymmdd ds = Ordering.lt := by
  unfold hasPlayerAtSchoolBefore
  rw [List.any_eq_true]
  constructor
  · rintro ⟨pg2, hmem, hcond⟩
    rw [decide_eq_true_eq] at hcond
    rcases hcond with ⟨⟨-, hid⟩ | ⟨he, -⟩, hteam2, hlt⟩
    · exact ⟨pg2, hmem, hid, hteam2, hlt⟩
    · exact absurd he hpid
  · rintro ⟨pg2, hmem, hid, hteam2, hlt⟩
    refine ⟨pg2, hmem, ?_⟩
    rw [decide_eq_true_eq]
    exact ⟨Or.inl ⟨hpid, hid⟩, hteam2, hlt⟩

/-! ## Claims -/

/-- C1: the claim that the processed stream respects the four-key order for
every pair of input games is false as stated: when `timeSort` presence is
mixed among date-tied games the comparator is not transitive, and on
`cycleGames` the pairwise constraints are cyclic, so no output of the sort
satisfies them. -/
theorem C1_sort_counterexample :
    ¬ (∀ gs : List Game, (sortGames gs).Pairwise (fun a b => gameLE a b = true)) := by
  intro h
  have hpw := h cycleGames
  have hperm : (sortGames cycleGames).Perm cycleGames := List.mergeSort_perm cycleGames gameLE
  have hlen : (sortGames cycleGames).length = 3 := by
    rw [hperm.length_eq]
    rfl
  obtain ⟨a, b, c, hL⟩ := List.length_eq_three.1 hlen
  rw [hL] at hpw hperm
  have hnd : List.Nodup [a, b, c] := hperm.nodup_iff.2 (by decide)
  have ha : a ∈ cycleGames := hperm.subset (by simp)
  have hb : b ∈ cycleGames := hperm.subset (by simp)
  have hc : c ∈ cycleGames := hperm.subset (by simp)
  simp only [cycleGames, List.mem_cons, List.not_mem_nil, or_false] at ha hb hc
  rcases ha with rfl | rfl | rfl <;> rcases hb with rfl | rfl | rfl <;>
    rcases hc with rfl | rfl | rfl <;> revert hnd hpw <;> decide

/-- C1 (amended): the engine sorts by exactly the four keys `dateSort`,
conditional `timeSort`, gender (`W` before `M`), `gameId`; the processed
stream is a permutation of the input, and — provided the four-key
comparator is total and transitive on the input games (which holds in
particular when genders are `M`/`W` and `timeSort` presence does not mix
among date-tied games) — every pair of games in the processed stream
respects the four-key order. -/
theorem C1_sort_amended (gs : List Game)
    (htot : ∀ a ∈ gs, ∀ b ∈ gs, gameLE a b = true ∨ gameLE b a = true)
    (htrans : ∀ a ∈ gs, ∀ b ∈ gs, ∀ c ∈ gs,
      gameLE a b = true → gameLE b c = true → gameLE a c = true) :
    (sortGames gs).Perm gs ∧ (sortGames gs).Pairwise (fun a b => gameLE a b = true) := by
  refine ⟨List.mergeSort_perm gs gameLE, ?_⟩
  have key := @List.map_mergeSort { x // x ∈ gs } Game (fun a b => gameLE a.1 b.1) gameLE
    Subtype.val gs.attach (fun a _ b _ => rfl)
  rw [List.attach_map_subtype_val] at key
  have hsorted : (gs.attach.mergeSort (fun a b => gameLE a.1 b.1)).Pairwise
      (fun a b => gameLE a.1 b.1 = true) := by
    apply List.sorted_mergeSort
    · intro a b c hab hbc
      exact htrans a.1 a.2 b.1 b.2 c.1 c.2 hab hbc
    · intro a b
      rcases htot a.1 a.2 b.1 b.2 with h | h <;> simp [h]
  unfold sortGames
  rw [← key]
  exact List.Pairwise.map _ (fun a b h => h) hsorted

/-- Witness for C1 (amended) at a concrete two-game input. -/
theorem C1_sort_amended_witness :
    (∀ a ∈ orderedPairGames, ∀ b ∈ orderedPairGames, gameLE a b = true ∨ gameLE b a = true) ∧
    (∀ a ∈ orderedPairGames, ∀ b ∈ orderedPairGames, ∀ c ∈ orderedPairGames,
      gameLE a b = true → gameLE b c = true → gameLE a c = true) ∧
    ((sortGames orderedPairGames).Perm orderedPairGames ∧
      (sortGames orderedPairGames).Pairwise (fun a b => gameLE a b = true)) :=
  ⟨by decide, by decide, C1_sort_amended orderedPairGames (by decide) (by decide)⟩

/-- C2: the spec scenario is wrong about the code on two points: on the
three-game input, game 2 (`Arena2`, second distinct venue) emits no
`venue-count` badge because ordinal 2 is not in `MILESTONE_COUNTS`, and
game 3 emits no `venue-visit` badge because visit count 2 is not in
`MILESTONE_COUNTS` either. -/
theorem C2_scenario_counterexample :
    (((computeGameMilestones scenarioData).1.getD 1 ⟨"", 0, []⟩).badges.countP isVenueCountB = 0) ∧
    (((computeGameMilestones scenarioData).1.getD 2 ⟨"", 0, []⟩).badges.countP isVenueVisitB = 0) := by
  have hs : sortGames scenarioData.games = scenarioData.games :=
    List.mergeSort_of_sorted (by decide)
  simp only [computeGameMilestones, hs]
  decide

/-- C2 (amended): on the spec scenario input the exact badge lists are:
game 1 — game-count 1, D1-game 1, venue-count ordinal 1, two new-team
badges, new-matchup; game 2 — only a streak badge of length 2 (venue
ordinal 2 is not a milestone); game 3 — only a streak badge of length 3
(visit count 2 is not a milestone, and the matchup is already seen). -/
theorem C2_scenario_amended :
    (computeGameMilestones scenarioData).1.map (fun o => (o.gameId, o.gameNumber, o.badges)) =
      [("g1", 1, [BadgeK.gameCount 1, BadgeK.d1Game 1, BadgeK.venueCount "Arena1" 1, BadgeK.newTeam "TeamX" "M", BadgeK.newTeam "TeamY" "M", BadgeK.newMatchup "TeamX" "TeamY" "M"]),
       ("g2", 2, [BadgeK.streak 2]),
       ("g3", 3, [BadgeK.streak 3])] := by
  have hs : sortGames scenarioData.games = scenarioData.games :=
    List.mergeSort_of_sorted (by decide)
  simp only [computeGameMilestones, hs]
  decide


/-- C3: streak badges are emitted on every game whose streak counter is at
least `2` after the date comparison (showing the current length), and on a
stream of four games on well-formed days `D`, `D+1`, `D+1`, `D+3` starting
from a fresh streak state the per-game streak badges are: none, streak `2`,
streak `2` again (a same-day game does not increment), none (a two-day gap
resets the streak to `1`). -/
theorem C3_streak_badges (d : Data) (st : MState) (i : Nat) (g : Game)
    (st0 : MState) (i0 : Nat) (g1 g2 g3 g4 : Game) (n : Nat)
    (hld0 : st0.lastGameDate = none)
    (h1 : parseDateSort g1.DateSort = some n)
    (h2 : parseDateSort g2.DateSort = some (n + 1))
    (h3 : parseDateSort g3.DateSort = some (n + 1))
    (h4 : parseDateSort g4.DateSort = some (n + 3)) :
    (((processGame d st i g).2).filter isStreakB =
      if 2 ≤ (streakUpdate st g.DateSort).currentStreak then
        [BadgeK.streak (streakUpdate st g.DateSort).currentStreak] else []) ∧
    ((processAll d st0 i0 [g1, g2, g3, g4]).2).map (fun o => o.badges.filter isStreakB) =
      [[], [BadgeK.streak 2], [BadgeK.streak 2], []] := by
  have hne1 : g1.DateSort ≠ "" := parseDateSort_ne_empty h1
  have hne2 : g2.DateSort ≠ "" := parseDateSort_ne_empty h2
  have hne3 : g3.DateSort ≠ "" := parseDateSort_ne_empty h3
  have hne4 : g4.DateSort ≠ "" := parseDateSort_ne_empty h4
  refine ⟨processGame_filter_streakB d st i g, ?_⟩
  have hl0 : st0.lastGameDate.getD "" = "" := by rw [hld0]; rfl
  have s1 : streakUpdate st0 g1.DateSort =
      { st0 with currentStreak := 1, lastGameDate := some g1.DateSort } :=
    streakUpdate_fresh st0 g1.DateSort hl0 hne1
  have b1 : ((processGame d st0 i0 g1).2).filter isStreakB = [] := by
    rw [processGame_filter_streakB, s1]
    simp
  simp only [processAll, List.map_cons, List.map_nil]
  obtain ⟨st1, hst1⟩ : ∃ x, (processGame d st0 i0 g1).1 = x := ⟨_, rfl⟩
  rw [hst1]
  have e1cs : st1.currentStreak = 1 := by
    rw [← hst1, processGame_currentStreak, s1]
  have e1ld : st1.lastGameDate = some g1.DateSort := by
    rw [← hst1, processGame_lastGameDate, s1]
  have hl1 : st1.lastGameDate.getD "" ≠ "" := by
    rw [e1ld]
    exact hne1
  have hd2 : dateDiffDays (st1.lastGameDate.getD "") g2.DateSort = some 1 := by
    rw [e1ld]
    show dateDiffDays g1.DateSort g2.DateSort = some 1
    unfold dateDiffDays
    rw [h1, h2]
    dsimp only
    have harith : ((n + 1 : Nat) : Int) - ((n : Nat) : Int) = 1 := by push_cast; ring
    exact congrArg some harith
  have s2 : streakUpdate st1 g2.DateSort =
      { st1 with currentStreak := st1.currentStreak + 1, lastGameDate := some g2.DateSort } :=
    streakUpdate_next st1 g2.DateSort hl1 hne2 hd2
  have b2 : ((processGame d st1 (i0 + 1) g2).2).filter isStreakB = [BadgeK.streak 2] := by
    rw [processGame_filter_streakB, s2]
    simp [e1cs]
  obtain ⟨st2, hst2⟩ : ∃ x, (processGame d st1 (i0 + 1) g2).1 = x := ⟨_, rfl⟩
  rw [hst2]
  have e2cs : st2.currentStreak = 2 := by
    rw [← hst2, processGame_currentStreak, s2]
    simp [e1cs]
  have e2ld : st2.lastGameDate = some g2.DateSort := by
    rw [← hst2, processGame_lastGameDate, s2]
  have hl2 : st2.lastGameDate.getD "" ≠ "" := by
    rw [e2ld]
    exact hne2
  have hd3 : dateDiffDays (st2.lastGameDate.getD "") g3.DateSort = some 0 := by
    rw [e2ld]
    show dateDiffDays g2.DateSort g3.DateSort = some 0
    unfold dateDiffDays
    rw [h2, h3]
    dsimp only
    have harith : ((n + 1 : Nat) : Int) - ((n + 1 : Nat) : Int) = 0 := sub_self _
    exact congrArg some harith
  have s3 : streakUpdate st2 g3.DateSort = { st2 with lastGameDate := some g3.DateSort } :=
    streakUpdate_same st2 g3.DateSort hl2 hne3 hd3
  have b3 : ((processGame d st2 (i0 + 1 + 1) g3).2).filter isStreakB = [BadgeK.streak 2] := by
    rw [processGame_filter_streakB, s3]
    simp [e2cs]
  obtain ⟨st3, hst3⟩ : ∃ x, (processGame d st2 (i0 + 1 + 1) g3).1 = x := ⟨_, rfl⟩
  rw [hst3]
  have e3cs : st3.currentStreak = 2 := by
    rw [← hst3, processGame_currentStreak, s3]
    exact e2cs
  have e3ld : st3.lastGameDate = some g3.DateSort := by
    rw [← hst3, processGame_lastGameDate, s3]
  have hl3 : st3.lastGameDate.getD "" ≠ "" := by
    rw [e3ld]
    exact hne3
  have hd4 : dateDiffDays (st3.lastGameDate.getD "") g4.DateSort = some 2 := by
    rw [e3ld]
    show dateDiffDays g3.DateSort g4.DateSort = some 2
    unfold dateDiffDays
    rw [h3, h4]
    dsimp only
    have harith : ((n + 3 : Nat) : Int) - ((n + 1 : Nat) : Int) = 2 := by push_cast; ring
    exact congrArg some harith
  have s4 : streakUpdate st3 g4.DateSort = { st3 with streakHistory := st3.streakHistory ++ (if 2 ≤ st3.currentStreak then [st3.currentStreak] else []), maxStreak := max st3.maxStreak st3.currentStreak, currentStreak := 1, lastGameDate := some g4.DateSort } :=
    streakUpdate_gap st3 g4.DateSort 2 hl3 hne4 hd4 (by decide) (by decide)
  have b4 : ((processGame d st3 (i0 + 1 + 1 + 1) g4).2).filter isStreakB = [] := by
    rw [processGame_filter_streakB, s4]
    simp
  rw [b1, b2, b3, b4]

/-- Witness for C3 at the concrete four-day scenario `20240101`,
`20240102`, `20240102`, `20240104`. -/
theorem C3_streak_badges_witness :
    initState.lastGameDate = none ∧
    parseDateSort kGame1.DateSort = some 884983 ∧
    parseDateSort kGame2.DateSort = some (884983 + 1) ∧
    parseDateSort kGame3.DateSort = some (884983 + 1) ∧
    parseDateSort kGame4.DateSort = some (884983 + 3) ∧
    ((((processGame emptyData initState 0 kGame1).2).filter isStreakB =
      if 2 ≤ (streakUpdate initState kGame1.DateSort).currentStreak then
        [BadgeK.streak (streakUpdate initState kGame1.DateSort).currentStreak] else []) ∧
    ((processAll emptyData initState 0 [kGame1, kGame2, kGame3, kGame4]).2).map
        (fun o => o.badges.filter isStreakB) =
      [[], [BadgeK.streak 2], [BadgeK.streak 2], []]) :=
  ⟨rfl, by decide, by decide, by decide, by decide,
   C3_streak_badges emptyData initState 0 kGame1 initState 0 kGame1 kGame2 kGame3 kGame4
     884983 rfl (by decide) (by decide) (by decide) (by decide)⟩


/-- C4: for a non-empty venue, a `venue-count` badge is emitted exactly when
the venue is new and its 1-based ordinal is a milestone count, and a
`venue-visit` badge exactly when the post-increment visit counter is both
greater than `1` and a milestone count; the seen-order is appended exactly
for new venues, the visit counter is always incremented, a first visit never
emits both badges, and an empty venue emits nothing and changes no venue
state. -/
theorem C4_venue_milestones (d : Data) (st : MState) (i : Nat) (g : Game) (v dv : String) :
    ((processGame d st i g).2).filter isVenueB =
      (venueStep st g.Venue (if g.Division = "" then "D1" else g.Division)).2 ∧
    (venueStep st v dv).2 =
      (if v ≠ "" ∧ st.venueCounts v = 0 ∧ st.venueOrder.length + 1 ∈ MILESTONE_COUNTS then
        [BadgeK.venueCount v (st.venueOrder.length + 1)] else []) ++
      (if v ≠ "" ∧ 1 < st.venueCounts v + 1 ∧ st.venueCounts v + 1 ∈ MILESTONE_COUNTS then
        [BadgeK.venueVisit v (st.venueCounts v + 1)] else []) ∧
    (venueStep st v dv).1.venueOrder =
      (if v ≠ "" ∧ st.venueCounts v = 0 then st.venueOrder ++ [v] else st.venueOrder) ∧
    (venueStep st v dv).1.venueCounts =
      (if v = "" then st.venueCounts else upd st.venueCounts v (st.venueCounts v + 1)) ∧
    ((venueStep st v dv).2.countP isVenueCountB = 0 ∨
      (venueStep st v dv).2.countP isVenueVisitB = 0) ∧
    venueStep st "" dv = (st, []) := by
  refine ⟨?_, venueStep_snd st v dv, ?_, ?_, ?_, rfl⟩
  · rw [processGame_filter_venueB, venueStep_snd]
  · rw [venueStep_fst]
  · rw [venueStep_fst]
  · rw [venueStep_snd, List.countP_append, List.countP_append]
    by_cases hz : st.venueCounts v = 0
    · right
      have h2 : (if v ≠ "" ∧ 1 < st.venueCounts v + 1 ∧ st.venueCounts v + 1 ∈ MILESTONE_COUNTS then [BadgeK.venueVisit v (st.venueCounts v + 1)] else []) = [] := by
        rw [if_neg]
        rintro ⟨-, hlt, -⟩
        rw [hz] at hlt
        exact absurd hlt (by decide)
      rw [h2]
      split <;> simp [List.countP_cons, List.countP_nil, isVenueVisitB]
    · left
      have h1 : (if v ≠ "" ∧ st.venueCounts v = 0 ∧ st.venueOrder.length + 1 ∈ MILESTONE_COUNTS then [BadgeK.venueCount v (st.venueOrder.length + 1)] else []) = [] := by
        rw [if_neg]
        rintro ⟨-, hz2, -⟩
        exact hz hz2
      rw [h1]
      split <;> simp [List.countP_cons, List.countP_nil, isVenueCountB]

/-- C5: across the whole processed stream each kind of `new` badge is
emitted at most once per key — per state value, per `(team, gender)` key,
per conference name and per unordered matchup key — provided every input
game carries one of the genders `""`, `"M"`, `"W"`. -/
theorem C5_new_badges_once (d : Data) (s k c mk : String)
    (hwf : ∀ g ∈ d.games, wfGender g) :
    (allBadges d).countP (isNewStateFor s) ≤ 1 ∧
    (allBadges d).countP (isNewTeamKey k) ≤ 1 ∧
    (allBadges d).countP (isNewConfFor c) ≤ 1 ∧
    (allBadges d).countP (isNewMatchupKey mk) ≤ 1 := by
  have hwf2 : ∀ g ∈ sortGames d.games, wfGender g := fun g hg =>
    hwf g ((List.mergeSort_perm d.games gameLE).subset hg)
  have hinv := processAll_C5Inv d (sortGames d.games) initState 0 [] hwf2 C5Inv_init
  rw [List.nil_append] at hinv
  rw [allBadges_eq]
  refine ⟨?_, ?_, ?_, ?_⟩
  · rw [hinv.1 s]
    split <;> simp
  · rw [hinv.2.1 k]
    split <;> simp
  · rw [hinv.2.2.1 c]
    split <;> simp
  · rw [hinv.2.2.2.1 mk]
    split <;> simp

/-- Witness for C5 on the end-to-end scenario input. -/
theorem C5_new_badges_once_witness :
    (∀ g ∈ scenarioData.games, wfGender g) ∧
    ((allBadges scenarioData).countP (isNewStateFor "CA") ≤ 1 ∧
     (allBadges scenarioData).countP (isNewTeamKey "TeamX|M") ≤ 1 ∧
     (allBadges scenarioData).countP (isNewConfFor "ACC") ≤ 1 ∧
     (allBadges scenarioData).countP (isNewMatchupKey "TeamX|TeamY|M") ≤ 1) :=
  ⟨fun g hg => by
      simp only [scenarioData, List.mem_cons, List.not_mem_nil, or_false] at hg
      rcases hg with rfl | rfl | rfl <;> exact Or.inl rfl,
   C5_new_badges_once scenarioData "CA" "TeamX|M" "ACC" "TeamX|TeamY|M" (fun g hg => by
      simp only [scenarioData, List.mem_cons, List.not_mem_nil, or_false] at hg
      rcases hg with rfl | rfl | rfl <;> exact Or.inl rfl)⟩

/-- C6: on the three-member conference scenario (members introduced as A,
A, B, C) the `conf-complete` badge is emitted exactly on the game that
introduces the third distinct member and on no earlier game, the seen-set
ends as `[A, B, C]`; in general a `conf-complete` badge is emitted at most
once per `(conference, gender)` key, and never with a zero member total. -/
theorem C6_conf_complete (d : Data) (k : String) :
    ((computeGameMilestones confScenarioData).1.map
        (fun o => o.badges.filter isConfCompleteB) =
      [[], [], [], [BadgeK.confComplete "ConfZ" "M" 3]]) ∧
    (computeGameMilestones confScenarioData).2.confTeamsSeen "ConfZ|M" = ["A", "B", "C"] ∧
    (allBadges d).countP (isConfCompleteKey k) ≤ 1 ∧
    (allBadges d).countP isConfCompleteZeroTotal = 0 := by
  have hs : sortGames confScenarioData.games = confScenarioData.games :=
    List.mergeSort_of_sorted (by decide)
  refine ⟨?_, ?_, ?_, ?_⟩
  · simp only [computeGameMilestones, hs]
    decide
  · simp only [computeGameMilestones, hs]
    decide
  · have hinv := processAll_CCInv d (sortGames d.games) initState 0 [] CCInv_init
    rw [List.nil_append] at hinv
    rw [allBadges_eq, hinv k]
    split <;> simp
  · rw [allBadges_eq]
    exact processAll_countP_zero d isConfCompleteZeroTotal
      (fun st i g => processGame_countP_confCompleteZeroTotal d st i g)
      (sortGames d.games) initState 0

/-- C7: the claim that both sentinel conference names are excluded from all
milestone logic is false: only `Historical/Other` is skipped by the
conference rule, so a `new-conf` badge is emitted for `All D1`, and the
conference-matchup rule skips neither sentinel. -/
theorem C7_sentinel_counterexample :
    BadgeK.newConf "All D1" ∈ allBadges sentinelData ∧
    BadgeK.confMatchup "Historical/Other" "ACC" ∈ allBadges sentinelData := by
  have hs : sortGames sentinelData.games = sentinelData.games :=
    List.mergeSort_of_sorted (by decide)
  simp only [allBadges, computeGameMilestones, hs]
  decide

/-- C7 (amended): what the code actually guarantees for the sentinels: no
`new-conf` badge is ever emitted for `Historical/Other`, and no
`conf-complete` badge is ever emitted for either sentinel name (for
`Historical/Other` the conference rule skips, for `All D1` the known member
total is `0`). -/
theorem C7_sentinel_amended (d : Data) :
    (allBadges d).countP (isNewConfFor "Historical/Other") = 0 ∧
    (allBadges d).countP isConfCompleteSentinel = 0 := by
  rw [allBadges_eq]
  exact ⟨processAll_countP_zero d (isNewConfFor "Historical/Other")
      (fun st i g => processGame_countP_newConfHO d st i g) (sortGames d.games) initState 0,
    processAll_countP_zero d isConfCompleteSentinel
      (fun st i g => processGame_countP_confCompleteSentinel d st i g)
      (sortGames d.games) initState 0⟩


/-- C8: the claim is false on its seeding rule: the source's seeding
matches appearance records by id only (the by-name branch is guarded by an
empty key, which never holds at the call site), so a player whose earlier
appearance is recorded under an empty id is seeded with nothing and no
transfer badge fires, while the specification's id-or-name matching would
seed the previous school. -/
theorem C8_transfer_counterexample :
    (allBadges transferData).countP isTransferB = 0 ∧
    seedSchools transferData "Bob" "Bob" "20240101" ["SchoolX"] = [] ∧
    specSeedSchools transferData "" "Bob" "20240101" ["SchoolX"] = ["SchoolX"] := by
  have hs : sortGames transferData.games = transferData.games :=
    List.mergeSort_of_sorted (by decide)
  refine ⟨?_, by decide, by decide⟩
  simp only [allBadges, computeGameMilestones, hs]
  decide

/-- C8 (amended): transfer detection keyed by id-or-name: on first sight a
player's known-schools set is seeded with exactly the listed previous
schools for which some appearance record carries the player's key in its
`player_id` field (name matching never applies) on that school's team
strictly before the current date; thereafter a transfer badge fires exactly
when the known set is non-empty and lacks the current team, and the current
team is always added. -/
theorem C8_transfer_amended (d : Data) (ds : String) (st : MState) (pg : PlayerGame)
    (sch : String) (pid : String)
    (hpid : pid = if pg.player_id ≠ "" then pg.player_id else pg.player)
    (hkey : pid ≠ "") (hteam : pg.team ≠ "") :
    (sch ∈ seedSchools d pid pg.player ds pg.realgm_previous_schools ↔
      sch ∈ pg.realgm_previous_schools ∧
        ∃ pg2 ∈ d.playerGames, pg2.player_id = pid ∧ pg2.team = sch ∧
          strCmp pg2.date_yyyymmdd ds = Ordering.lt) ∧
    (st.playerTeams pid = none →
      (transferStep d ds st pg).2 =
        (if seedSchools d pid pg.player ds pg.realgm_previous_schools ≠ [] ∧
            pg.team ∉ seedSchools d pid pg.player ds pg.realgm_previous_schools then
          [BadgeK.transfer pg.player (seedSchools d pid pg.player ds pg.realgm_previous_schools) pg.team]
        else []) ∧
      (transferStep d ds st pg).1.playerTeams pid =
        some (pg.player, setAdd (seedSchools d pid pg.player ds pg.realgm_previous_schools) pg.team)) ∧
    (∀ nm known, st.playerTeams pid = some (nm, known) →
      (transferStep d ds st pg).2 =
        (if known ≠ [] ∧ pg.team ∉ known then [BadgeK.transfer pg.player known pg.team] else []) ∧
      (transferStep d ds st pg).1.playerTeams pid = some (nm, setAdd known pg.team)) := by
  subst hpid
  refine ⟨?_, ?_, ?_⟩
  · rw [mem_seedSchools, hasPlayerAtSchoolBefore_id d _ pg.player ds sch hkey]
  · intro hnone
    have hentry : playerEntry d ds st pg =
        (pg.player, seedSchools d (if pg.player_id ≠ "" then pg.player_id else pg.player)
          pg.player ds pg.realgm_previous_schools) := by
      simp only [playerEntry, hnone]
    constructor
    · rw [transferStep_snd, hentry]
      dsimp only
      by_cases hc : seedSchools d (if pg.player_id ≠ "" then pg.player_id else pg.player) pg.player ds pg.realgm_previous_schools ≠ [] ∧ pg.team ∉ seedSchools d (if pg.player_id ≠ "" then pg.player_id else pg.player) pg.player ds pg.realgm_previous_schools
      · rw [if_pos ⟨not_or.mpr ⟨hkey, hteam⟩, hc.1, hc.2⟩, if_pos hc]
      · rw [if_neg (fun hfull => hc ⟨hfull.2.1, hfull.2.2⟩), if_neg hc]
    · rw [transferStep_fst, hentry]
      dsimp only
      rw [if_neg (not_or.mpr ⟨hkey, hteam⟩)]
      simp [upd]
  · intro nm known hsome
    have hentry : playerEntry d ds st pg = (nm, known) := by
      simp only [playerEntry, hsome]
    constructor
    · rw [transferStep_snd, hentry]
      dsimp only
      by_cases hc : known ≠ [] ∧ pg.team ∉ known
      · rw [if_pos ⟨not_or.mpr ⟨hkey, hteam⟩, hc.1, hc.2⟩, if_pos hc]
      · rw [if_neg (fun hfull => hc ⟨hfull.2.1, hfull.2.2⟩), if_neg hc]
    · rw [transferStep_fst, hentry]
      dsimp only
      rw [if_neg (not_or.mpr ⟨hkey, hteam⟩)]
      simp [upd]

/-- Witness for C8 (amended) on the `transferData` appearance of player
`Bob` keyed by name. -/
theorem C8_transfer_amended_witness :
    ("Bob" : String) = (if bobAppearance.player_id ≠ "" then bobAppearance.player_id else bobAppearance.player) ∧
    ("Bob" : String) ≠ "" ∧ bobAppearance.team ≠ "" ∧
    ((("SchoolX" ∈ seedSchools transferData "Bob" bobAppearance.player "20240101" bobAppearance.realgm_previous_schools ↔
        "SchoolX" ∈ bobAppearance.realgm_previous_schools ∧
          ∃ pg2 ∈ transferData.playerGames, pg2.player_id = "Bob" ∧ pg2.team = "SchoolX" ∧
            strCmp pg2.date_yyyymmdd "20240101" = Ordering.lt) ∧
    (initState.playerTeams "Bob" = none →
      (transferStep transferData "20240101" initState bobAppearance).2 =
        (if seedSchools transferData "Bob" bobAppearance.player "20240101" bobAppearance.realgm_previous_schools ≠ [] ∧
            bobAppearance.team ∉ seedSchools transferData "Bob" bobAppearance.player "20240101" bobAppearance.realgm_previous_schools then
          [BadgeK.transfer bobAppearance.player (seedSchools transferData "Bob" bobAppearance.player "20240101" bobAppearance.realgm_previous_schools) bobAppearance.team]
        else []) ∧
      (transferStep transferData "20240101" initState bobAppearance).1.playerTeams "Bob" =
        some (bobAppearance.player, setAdd (seedSchools transferData "Bob" bobAppearance.player "20240101" bobAppearance.realgm_previous_schools) bobAppearance.team)) ∧
    (∀ nm known, initState.playerTeams "Bob" = some (nm, known) →
      (transferStep transferData "20240101" initState bobAppearance).2 =
        (if known ≠ [] ∧ bobAppearance.team ∉ known then [BadgeK.transfer bobAppearance.player known bobAppearance.team] else []) ∧
      (transferStep transferData "20240101" initState bobAppearance).1.playerTeams "Bob" = some (nm, setAdd known bobAppearance.team)))) :=
  ⟨rfl, by decide, by decide,
   C8_transfer_amended transferData "20240101" initState bobAppearance "SchoolX" "Bob"
     rfl (by decide) (by decide)⟩

/-- C9: the claim is false: a malformed date is not treated like an empty
date — unlike an empty date it flushes the running streak into the history,
updates the maximum, and overwrites `lastGameDate` with the malformed
string, so the resulting streak state diverges. -/
theorem C9_malformed_date_counterexample :
    streakFields (processAll emptyData initState 0 malformedDateGames).1 =
      (1, some "BAD!DATE", 2, [2]) ∧
    streakFields (processAll emptyData initState 0 emptyDateGames).1 =
      (1, some "20240102", 0, []) ∧
    streakFields (processAll emptyData initState 0 malformedDateGames).1 ≠
      streakFields (processAll emptyData initState 0 emptyDateGames).1 := by
  refine ⟨by decide, by decide, by decide⟩

/-- C9 (amended): on a game with a non-empty unparsable date the streak
restarts at `1` and no streak badge is emitted (as for an empty date), no
exception being modelled since every path is total; but when a previous
date exists the update also flushes the streak history, updates the
maximum, and overwrites `lastGameDate` with the malformed string. -/
theorem C9_malformed_date_amended (d : Data) (st : MState) (i : Nat) (g : Game)
    (hds : g.DateSort ≠ "") (hparse : parseDateSort g.DateSort = none) :
    (streakUpdate st g.DateSort).currentStreak = 1 ∧
    (streakUpdate st "").currentStreak = 1 ∧
    ((processGame d st i g).2).filter isStreakB = [] ∧
    (st.lastGameDate.getD "" ≠ "" →
      streakUpdate st g.DateSort =
        { st with streakHistory := st.streakHistory ++ (if 2 ≤ st.currentStreak then [st.currentStreak] else []), maxStreak := max st.maxStreak st.currentStreak, currentStreak := 1, lastGameDate := some g.DateSort }) := by
  have hdiff : ∀ last, dateDiffDays last g.DateSort = none := by
    intro last
    unfold dateDiffDays
    rw [hparse]
    cases parseDateSort last <;> rfl
  have hcs : (streakUpdate st g.DateSort).currentStreak = 1 := by
    by_cases hl : st.lastGameDate.getD "" = ""
    · rw [streakUpdate_fresh st g.DateSort hl hds]
    · rw [streakUpdate_nan st g.DateSort hl hds (hdiff _)]
  refine ⟨hcs, ?_, ?_, ?_⟩
  · rw [streakUpdate_empty]
  · rw [processGame_filter_streakB, hcs]
    simp
  · intro hl
    exact streakUpdate_nan st g.DateSort hl hds (hdiff _)

/-- Witness for C9 (amended) on the malformed date `BAD!DATE` from a
mid-streak state. -/
theorem C9_malformed_date_amended_witness :
    badDateGame.DateSort ≠ "" ∧ parseDateSort badDateGame.DateSort = none ∧
    ((streakUpdate midStreakState badDateGame.DateSort).currentStreak = 1 ∧
     (streakUpdate midStreakState "").currentStreak = 1 ∧
     ((processGame emptyData midStreakState 0 badDateGame).2).filter isStreakB = [] ∧
     (midStreakState.lastGameDate.getD "" ≠ "" →
       streakUpdate midStreakState badDateGame.DateSort =
         { midStreakState with streakHistory := midStreakState.streakHistory ++ (if 2 ≤ midStreakState.currentStreak then [midStreakState.currentStreak] else []), maxStreak := max midStreakState.maxStreak midStreakState.currentStreak, currentStreak := 1, lastGameDate := some badDateGame.DateSort })) :=
  ⟨by decide, by decide,
   C9_malformed_date_amended emptyData midStreakState 0 badDateGame (by decide) (by decide)⟩

/-- C10: a game with an empty `Division` is processed exactly as one marked
`D1`: the whole per-game step is equal, the D1 game counter is incremented
(with a `d1-game` badge exactly at the milestone counts), and the venue
participates in D1 venue tracking. -/
theorem C10_division_default (d : Data) (st : MState) (i : Nat) (g : Game) :
    processGame d st i { g with Division := "" } = processGame d st i { g with Division := "D1" } ∧
    (d1GameStep st "D1").1.d1GameCount = st.d1GameCount + 1 ∧
    (d1GameStep st "D1").2 =
      (if st.d1GameCount + 1 ∈ GAME_MILESTONES then [BadgeK.d1Game (st.d1GameCount + 1)] else []) ∧
    (processGame d st i { g with Division := "" }).1.d1VenuesSeen =
      (if g.Venue ≠ "" ∧ st.venueCounts g.Venue = 0 ∧ g.Venue ∉ st.d1VenuesSeen then
        st.d1VenuesSeen ++ [g.Venue] else st.d1VenuesSeen) := by
  refine ⟨rfl, ?_, ?_, ?_⟩
  · rw [d1GameStep_fst]
    simp
  · rw [d1GameStep_snd]
    simp
  · rw [processGame_d1VenuesSeen]
    simp

end NCAAM
